import Mathlib

/-! Donation lifecycle of `server.js`.

A shallow embedding of the donation handlers of `src/server.js`
(`POST /api/donations`, `POST /api/donations/batch`,
`POST /api/donations/:id/reserve`, `.../business-confirm`, `.../confirm`) and
of `cleanDonation`, over an explicit model of the `donations` table, followed
by the properties proved about them.

Conventions of the embedding:

* the `donations` table is a map from the primary key `id` to a row;
* a JavaScript string is a Lean `String`; `.length` is the number of UTF-16
  code units (`utf16Length`) and `.trim()` is `jsTrim`;
* a request body field is a JSON string or is absent (`Option String`);
* `req.params.id` enters a handler as the value of `Number.parseInt(id)`,
  `none` standing for `NaN`;
* `NOW()` and `Math.random()` are inputs of the handler that uses them; the
  arithmetic on the random draw is rounded to doubles (`toDouble`);
* numbers are rationals; `Number.parseFloat` on strings and `toLowerCase` are
  parameters (`Builtins`), and `toFixed(6)` rounds half away from zero.
-/

namespace Donations

/-! ## Strings -/

/-- Code points that `String.prototype.trim` removes: the ECMAScript
`WhiteSpace` and `LineTerminator` productions. -/
def isJsWhitespace (c : Char) : Bool :=
  let n := c.toNat
  n == 0x09 || n == 0x0A || n == 0x0B || n == 0x0C || n == 0x0D || n == 0x20 ||
  n == 0xA0 || n == 0x1680 || (0x2000 ≤ n && n ≤ 0x200A) || n == 0x2028 ||
  n == 0x2029 || n == 0x202F || n == 0x205F || n == 0x3000 || n == 0xFEFF

/-- Characters of `s.trim()`. -/
def trimChars (l : List Char) : List Char :=
  ((l.dropWhile isJsWhitespace).reverse.dropWhile isJsWhitespace).reverse

/-- JavaScript `s.trim()`. -/
def jsTrim (s : String) : String :=
  String.mk (trimChars s.data)

/-- JavaScript `s.length`: the number of UTF-16 code units of `s`. -/
def utf16Length (s : String) : Nat :=
  (s.data.map (fun c => if c.toNat < 0x10000 then 1 else 2)).sum

/-- JavaScript truthiness of a body field that is a string or absent:
`undefined`, `null` and `""` are falsy. -/
def truthy : Option String → Bool
  | some s => s != ""
  | none => false

/-! ## Data model -/

/-- Values the handlers write to, and compare with, the `status` column. -/
inductive Status where
  | available
  | reserved
  | completed
  deriving DecidableEq, Repr

/-- One row of the `donations` table, without its primary key `id` (the key
of the store). A `NULL` column is `none`; timestamps are natural numbers. -/
structure Donation where
  donor_id : Nat
  title : String
  description : String
  category : String
  quantity : Int
  weight : Option ℚ
  donation_reason : Option String
  contact_info : Option String
  expiry_date : Option String
  pickup_address : String
  pickup_latitude : ℚ
  pickup_longitude : ℚ
  status : Status
  reserved_by : Option Nat
  reserved_at : Option Nat
  pickup_time : Option String
  pickup_person_name : Option String
  pickup_person_id : Option String
  verification_code : Option String
  business_confirmed : Option Bool
  business_confirmed_at : Option Nat
  donor_confirmed : Option Bool
  donor_confirmed_at : Option Nat
  recipient_confirmed : Option Bool
  recipient_confirmed_at : Option Nat
  completed_at : Option Nat
  created_at : Nat
  deriving DecidableEq

/-- The authenticated actor `req.user` (the JWT payload). -/
structure User where
  id : Nat
  userType : String
  deriving DecidableEq

/-- The `donations` table: primary key to row. -/
abbrev Store := Nat → Option Donation

/-- What a handler sends: `res.status(c).json({ error })`, or a 200 answer
`res.json(...)` with a message, which for `reserve` also carries the code and
the echoed logistics. -/
inductive Response where
  | error (status : Nat) (error : String)
  | message (message : String)
  | reserved (message verification_code pickup_time pickup_person_name : String)
  deriving DecidableEq, Repr

/-- HTTP status of a response. -/
def Response.httpStatus : Response → Nat
  | .error c _ => c
  | .message _ => 200
  | .reserved _ _ _ _ => 200

/-- A response is a success when it is sent by `res.json` alone, without
`res.status(...)` and an `error`. -/
def Response.isSuccess : Response → Bool
  | .error _ _ => false
  | .message _ => true
  | .reserved _ _ _ _ => true

/-! ## Store statements -/

/-- Rows of `SELECT ... FROM donations WHERE id = ?`. -/
def selectById (s : Store) (k : Nat) : List Donation :=
  (s k).toList

/-- Rows of `SELECT id, donor_id FROM donations WHERE id = ? AND status = 'available'`. -/
def selectAvailable (s : Store) (k : Nat) : List Donation :=
  (selectById s k).filter (fun d => d.status = Status.available)

/-- `UPDATE donations SET ... WHERE id = ?`: the new table and `affectedRows`. -/
def updateById (s : Store) (k : Nat) (set : Donation → Donation) : Store × Nat :=
  match s k with
  | none => (s, 0)
  | some d => (Function.update s k (some (set d)), 1)

/-- Columns that the `INSERT` of `POST /api/donations` supplies. -/
structure NewDonation where
  title : String
  description : String
  category : String
  quantity : Int
  weight : Option ℚ
  donation_reason : Option String
  contact_info : Option String
  expiry_date : Option String
  pickup_address : String
  pickup_latitude : ℚ
  pickup_longitude : ℚ
  deriving DecidableEq

/-- Modelled from the spec: the column defaults of the `donations` table, whose
`CREATE TABLE` is not part of the source. The `INSERT` of
`POST /api/donations` supplies `donor_id`, the descriptive and location columns
and `status = 'available'`; every reservation and confirmation column is left
to its default, which the spec gives as null. -/
def freshDonation (donor : Nat) (f : NewDonation) (now : Nat) : Donation :=
  { donor_id := donor
    title := f.title
    description := f.description
    category := f.category
    quantity := f.quantity
    weight := f.weight
    donation_reason := f.donation_reason
    contact_info := f.contact_info
    expiry_date := f.expiry_date
    pickup_address := f.pickup_address
    pickup_latitude := f.pickup_latitude
    pickup_longitude := f.pickup_longitude
    status := Status.available
    reserved_by := none
    reserved_at := none
    pickup_time := none
    pickup_person_name := none
    pickup_person_id := none
    verification_code := none
    business_confirmed := none
    business_confirmed_at := none
    donor_confirmed := none
    donor_confirmed_at := none
    recipient_confirmed := none
    recipient_confirmed_at := none
    completed_at := none
    created_at := now }

/-! ## Double-precision numbers -/

/-- The first exponent, going down from `e`, that passes the test `p`; after
`fuel` failed tests, the exponent reached. -/
def searchDown (p : ℤ → Bool) : Nat → ℤ → ℤ
  | 0, e => e
  | fuel + 1, e => if p e then e else searchDown p fuel (e - 1)

/-- The test `2 ^ e ≤ n / d` on natural numbers. -/
def pow2Le (e : ℤ) (n d : Nat) : Bool :=
  if 0 ≤ e then decide (2 ^ e.toNat * d ≤ n) else decide (d ≤ n * 2 ^ (-e).toNat)

/-- The binary exponent of the double nearest to `x`: the largest `e ≤ 1023`
with `2 ^ e ≤ |x|`, and `-1022` for zero and the subnormal range. -/
def binade (x : ℚ) : ℤ :=
  searchDown (fun e => pow2Le e x.num.natAbs x.den) 2045 1023

/-- The integer nearest to `q`, the even one on a tie. -/
def roundHalfEven (q : ℚ) : ℤ :=
  if q - ⌊q⌋ < 1 / 2 then ⌊q⌋
  else if 1 / 2 < q - ⌊q⌋ then ⌊q⌋ + 1
  else if ⌊q⌋ % 2 = 0 then ⌊q⌋ else ⌊q⌋ + 1

/-- The IEEE 754 double nearest to `x`, ties to even: `x` rounded to a
multiple of `2 ^ (binade x - 52)`. It is the value of a JavaScript arithmetic
operation whose exact result is `x` (for `|x| < 2 ^ 1024`: overflow to an
infinity is outside the model). -/
def toDouble (x : ℚ) : ℚ :=
  roundHalfEven (x / 2 ^ (binade x - 52)) * 2 ^ (binade x - 52)

/-! ## `POST /api/donations/:id/reserve` -/

/-- Request of the reserve handler. -/
structure ReserveRequest where
  id : Option Nat
  user : User
  pickup_time : Option String
  pickup_person_name : Option String
  pickup_person_id : Option String
  deriving DecidableEq

/-- `Math.floor(100000 + Math.random() * 900000).toString()` for the draw
`rnd`, a double: the product and the sum are each rounded to a double. -/
def verificationCode (rnd : ℚ) : String :=
  toString ⌊toDouble (100000 + toDouble (rnd * 900000))⌋

/-- What the reserve handler holds between its `SELECT` and its `UPDATE`. -/
structure ReservePending where
  id : Nat
  user : User
  pickup_time : String
  pickup_person_name : String
  pickup_person_id : String
  deriving DecidableEq

/-- The reserve handler up to and including its availability `SELECT`
(lines 836-862): an early answer, or the values the `UPDATE` will use. -/
def reserveCheck (s : Store) (q : ReserveRequest) : Except Response ReservePending :=
  match q.id with
  | none => .error (.error 400 "ID de donación inválido")
  | some k =>
    if q.user.userType ≠ "organization" then
      .error (.error 403 "Solo las organizaciones pueden reservar donaciones")
    else if !truthy q.pickup_time || !truthy q.pickup_person_name
        || !truthy q.pickup_person_id then
      .error (.error 400 "Debe proporcionar hora de recogida, nombre de la persona y cédula")
    else
      let pid := q.pickup_person_id.getD ""
      if utf16Length pid < 6 ∨ utf16Length pid > 20 then
        .error (.error 400 "La cédula debe tener entre 6 y 20 caracteres")
      else if (selectAvailable s k).length = 0 then
        .error (.error 400 "Donación no disponible para reservar")
      else
        .ok { id := k
              user := q.user
              pickup_time := q.pickup_time.getD ""
              pickup_person_name := q.pickup_person_name.getD ""
              pickup_person_id := pid }

/-- The `SET` clause of the reserve `UPDATE` (lines 869-877). -/
def reserveSet (p : ReservePending) (code : String) (now : Nat) (d : Donation) : Donation :=
  { d with
    status := Status.reserved
    reserved_by := some p.user.id
    reserved_at := some now
    pickup_time := some p.pickup_time
    pickup_person_name := some (jsTrim p.pickup_person_name)
    pickup_person_id := some (jsTrim p.pickup_person_id)
    verification_code := some code
    business_confirmed := some false }

/-- The reserve handler from the code generation to the answer (lines 864-900). -/
def reserveUpdate (s : Store) (p : ReservePending) (rnd : ℚ) (now : Nat) : Store × Response :=
  let code := verificationCode rnd
  let r := updateById s p.id (reserveSet p code now)
  if r.2 = 0 then
    (r.1, .error 400 "No se pudo reservar la donación")
  else
    (r.1, .reserved "Donación reservada exitosamente. Esperando confirmación del comercio."
      code p.pickup_time p.pickup_person_name)

/-- `POST /api/donations/:id/reserve`, its statements run one after another. -/
def reserve (s : Store) (q : ReserveRequest) (rnd : ℚ) (now : Nat) : Store × Response :=
  match reserveCheck s q with
  | .error r => (s, r)
  | .ok p => reserveUpdate s p rnd now

/-! ## `POST /api/donations/:id/business-confirm` -/

/-- Request of the business-confirm handler; `accept` is `none` when the body
field is not a boolean. -/
structure BusinessConfirmRequest where
  id : Option Nat
  user : User
  accept : Option Bool
  deriving DecidableEq

/-- What the business-confirm handler holds between its `SELECT` and its
`UPDATE`. -/
structure BusinessPending where
  id : Nat
  accept : Bool
  deriving DecidableEq

/-- The business-confirm handler up to its state checks (lines 918-948). -/
def businessConfirmCheck (s : Store) (q : BusinessConfirmRequest) :
    Except Response BusinessPending :=
  match q.id with
  | none => .error (.error 400 "ID de donación inválido")
  | some k =>
    match q.accept with
    | none => .error (.error 400 "Debe especificar si acepta o rechaza")
    | some accept =>
      match selectById s k with
      | [] => .error (.error 404 "Donación no encontrada")
      | donation :: _ =>
        if donation.donor_id ≠ q.user.id then
          .error (.error 403 "Solo el donante puede confirmar la hora de recogida")
        else if donation.status ≠ Status.reserved then
          .error (.error 400 "La donación debe estar reservada")
        else if donation.business_confirmed = some true then
          .error (.error 400 "Ya confirmaste esta reserva")
        else
          .ok { id := k, accept := accept }

/-- The `SET` clause of the accepting `UPDATE` (lines 952-954). -/
def acceptSet (now : Nat) (d : Donation) : Donation :=
  { d with
    business_confirmed := some true
    business_confirmed_at := some now }

/-- The `SET` clause of the rejecting `UPDATE` (lines 970-979). -/
def rejectSet (d : Donation) : Donation :=
  { d with
    status := Status.available
    reserved_by := none
    reserved_at := none
    pickup_time := none
    pickup_person_name := none
    pickup_person_id := none
    verification_code := none
    business_confirmed := some false
    business_confirmed_at := none }

/-- The business-confirm handler from its `UPDATE` to the answer (lines 950-993). -/
def businessConfirmUpdate (s : Store) (p : BusinessPending) (now : Nat) : Store × Response :=
  if p.accept then
    let r := updateById s p.id (acceptSet now)
    if r.2 = 0 then
      (r.1, .error 400 "No se pudo confirmar la reserva")
    else
      (r.1, .message "Hora de recogida aceptada. La organización puede proceder con la recogida.")
  else
    let r := updateById s p.id rejectSet
    if r.2 = 0 then
      (r.1, .error 400 "No se pudo rechazar la reserva")
    else
      (r.1, .message "Reserva rechazada. La donación está disponible nuevamente.")

/-- `POST /api/donations/:id/business-confirm`, its statements run one after
another. -/
def businessConfirm (s : Store) (q : BusinessConfirmRequest) (now : Nat) : Store × Response :=
  match businessConfirmCheck s q with
  | .error r => (s, r)
  | .ok p => businessConfirmUpdate s p now

/-! ## `POST /api/donations/:id/confirm` -/

/-- Request of the confirm handler. -/
structure ConfirmRequest where
  id : Option Nat
  user : User
  verification_code : Option String
  deriving DecidableEq

/-- Which flag the `updateQuery` of the confirm handler sets. -/
inductive Side where
  | donor
  | recipient
  deriving DecidableEq, Repr

/-- What the confirm handler holds between its `SELECT` and its `UPDATE`: the
`updateQuery` (the side it sets and whether it carries
`status = 'completed'`) and the `message`. -/
structure ConfirmPending where
  id : Nat
  side : Side
  bothConfirmed : Bool
  message : String
  deriving DecidableEq

/-- The confirm handler up to the construction of `updateQuery`
(lines 1011-1076). `COALESCE(c, FALSE)` is `c.getD false`. -/
def confirmCheck (s : Store) (q : ConfirmRequest) : Except Response ConfirmPending :=
  match q.id with
  | none => .error (.error 400 "ID de donación inválido")
  | some k =>
    if !truthy q.verification_code then
      .error (.error 400 "Código de verificación requerido")
    else
      match selectById s k with
      | [] => .error (.error 404 "Donación no encontrada")
      | donation :: _ =>
        let donor_confirmed := donation.donor_confirmed.getD false
        let recipient_confirmed := donation.recipient_confirmed.getD false
        let business_confirmed := donation.business_confirmed.getD false
        if donation.status ≠ Status.reserved then
          .error (.error 400 "La donación debe estar reservada para confirmar")
        else if !business_confirmed then
          .error (.error 400 "El comercio aún no ha aceptado la hora de recogida")
        else if donation.verification_code ≠ some (jsTrim (q.verification_code.getD "")) then
          .error (.error 400 "Código de verificación incorrecto")
        else
          let bothConfirmed :=
            (donor_confirmed || donation.donor_id = q.user.id) &&
            (recipient_confirmed || donation.reserved_by = some q.user.id)
          let completedMessage := "¡Donación completada! Ambas partes confirmaron"
          if donation.donor_id = q.user.id then
            if donor_confirmed then
              .error (.error 400 "Ya confirmaste esta donación")
            else
              .ok { id := k, side := Side.donor, bothConfirmed := bothConfirmed
                    message := if bothConfirmed then completedMessage
                      else "Confirmación de donante registrada" }
          else if donation.reserved_by = some q.user.id then
            if recipient_confirmed then
              .error (.error 400 "Ya confirmaste esta donación")
            else
              .ok { id := k, side := Side.recipient, bothConfirmed := bothConfirmed
                    message := if bothConfirmed then completedMessage
                      else "Confirmación de organización registrada" }
          else
            .error (.error 403 "No tienes permisos para confirmar esta donación")

/-- The `SET` clause of `updateQuery` (lines 1055, 1061, 1072). -/
def confirmSet (p : ConfirmPending) (now : Nat) (d : Donation) : Donation :=
  let d1 : Donation :=
    match p.side with
    | Side.donor => { d with donor_confirmed := some true, donor_confirmed_at := some now }
    | Side.recipient =>
      { d with recipient_confirmed := some true, recipient_confirmed_at := some now }
  if p.bothConfirmed then
    { d1 with status := Status.completed, completed_at := some now }
  else d1

/-- The confirm handler from its `UPDATE` to the answer (lines 1078-1086). -/
def confirmUpdate (s : Store) (p : ConfirmPending) (now : Nat) : Store × Response :=
  let r := updateById s p.id (confirmSet p now)
  if r.2 = 0 then
    (r.1, .error 400 "No se pudo confirmar la donación")
  else
    (r.1, .message p.message)

/-- `POST /api/donations/:id/confirm`, its statements run one after another. -/
def confirm (s : Store) (q : ConfirmRequest) (now : Nat) : Store × Response :=
  match confirmCheck s q with
  | .error r => (s, r)
  | .ok p => confirmUpdate s p now

/-! ## Sequences of calls -/

/-- One call of a lifecycle handler, with the clock and the random draw it
consumes. -/
inductive Call where
  | reserve (q : ReserveRequest) (rnd : ℚ) (now : Nat)
  | businessConfirm (q : BusinessConfirmRequest) (now : Nat)
  | confirm (q : ConfirmRequest) (now : Nat)

/-- Run one call. -/
def Call.run (s : Store) : Call → Store × Response
  | .reserve q rnd now => Donations.reserve s q rnd now
  | .businessConfirm q now => Donations.businessConfirm s q now
  | .confirm q now => Donations.confirm s q now

/-- Run calls one after another and keep the table. -/
def runCalls (s : Store) : List Call → Store
  | [] => s
  | c :: cs => runCalls (c.run s).1 cs

/-- A table that holds the single row `d` under the key `k`. -/
def singleRow (k : Nat) (d : Donation) : Store :=
  fun j => if j = k then some d else none

/-! ## Invariants of a row -/

/-- The reservation columns of a row are all non-null. -/
def logisticsSet (d : Donation) : Prop :=
  d.verification_code ≠ none ∧ d.reserved_by ≠ none ∧ d.pickup_time ≠ none ∧
    d.pickup_person_name ≠ none ∧ d.pickup_person_id ≠ none

/-- The reservation columns of a row are all null. -/
def logisticsNull (d : Donation) : Prop :=
  d.verification_code = none ∧ d.reserved_by = none ∧ d.pickup_time = none ∧
    d.pickup_person_name = none ∧ d.pickup_person_id = none

instance (d : Donation) : Decidable (logisticsSet d) := by
  unfold logisticsSet; infer_instance

instance (d : Donation) : Decidable (logisticsNull d) := by
  unfold logisticsNull; infer_instance

/-! ## Calls whose store statements interleave -/

/-- A call in flight: not yet started, stopped between its `SELECT` and its
`UPDATE` (the two `await pool.execute` of a handler), or answered. -/
inductive InFlight where
  | start (c : Call)
  | reservePending (p : ReservePending) (rnd : ℚ) (now : Nat)
  | businessPending (p : BusinessPending) (now : Nat)
  | confirmPending (p : ConfirmPending) (now : Nat)
  | done (r : Response)

/-- Run a call in flight up to and including its next store statement. -/
def InFlight.step (s : Store) : InFlight → Store × InFlight
  | .start (.reserve q rnd now) =>
    match reserveCheck s q with
    | .error r => (s, .done r)
    | .ok p => (s, .reservePending p rnd now)
  | .start (.businessConfirm q now) =>
    match businessConfirmCheck s q with
    | .error r => (s, .done r)
    | .ok p => (s, .businessPending p now)
  | .start (.confirm q now) =>
    match confirmCheck s q with
    | .error r => (s, .done r)
    | .ok p => (s, .confirmPending p now)
  | .reservePending p rnd now =>
    let r := reserveUpdate s p rnd now
    (r.1, .done r.2)
  | .businessPending p now =>
    let r := businessConfirmUpdate s p now
    (r.1, .done r.2)
  | .confirmPending p now =>
    let r := confirmUpdate s p now
    (r.1, .done r.2)
  | .done r => (s, .done r)

/-- The answer of a call in flight, once it has one. -/
def InFlight.answer : InFlight → Option Response
  | .done r => some r
  | _ => none

/-- Run a schedule: each entry names the call that performs its next store
statement. An entry that names no call is skipped. -/
def interleave (s : Store) (calls : List InFlight) : List Nat → Store × List InFlight
  | [] => (s, calls)
  | i :: rest =>
    match calls.get? i with
    | none => interleave s calls rest
    | some c =>
      let r := c.step s
      interleave r.1 (calls.set i r.2) rest

/-! ## The scenario of the spec -/

/-- Columns of the donation of the scenario: bread, quantity 5, category
bakery, at latitude 4.81 and longitude -75.69. -/
def scenarioColumns : NewDonation :=
  { title := "Bread"
    description := "Bread"
    category := "bakery"
    quantity := 5
    weight := none
    donation_reason := none
    contact_info := none
    expiry_date := none
    pickup_address := "Lat: 4.810000, Lng: -75.690000"
    pickup_latitude := 481 / 100
    pickup_longitude := -7569 / 100 }

/-- The donor of the scenario. -/
def donor3 : User := { id := 3, userType := "donor" }

/-- The organization of the scenario. -/
def org7 : User := { id := 7, userType := "organization" }

/-- A second organization. -/
def org8 : User := { id := 8, userType := "organization" }

/-- A table with the donation of the scenario, created by the donor, under
the key 1. -/
def scenarioStore : Store :=
  singleRow 1 (freshDonation donor3.id scenarioColumns 0)

/-- A table with the same donation created by the organization `org7`
(`POST /api/donations` checks no role, lines 599-699). -/
def selfStore : Store :=
  singleRow 1 (freshDonation org7.id scenarioColumns 0)

/-- The reserve request of the scenario, sent by `u`. -/
def scenarioReserve (u : User) : ReserveRequest :=
  { id := some 1
    user := u
    pickup_time := some "2024-01-01T10:00"
    pickup_person_name := some "Ana Ruiz"
    pickup_person_id := some "1029384756" }

/-- A business-confirm request for the donation 1. -/
def scenarioBusiness (u : User) (accept : Bool) : BusinessConfirmRequest :=
  { id := some 1, user := u, accept := some accept }

/-- A confirm request for the donation 1. -/
def scenarioConfirm (u : User) (code : String) : ConfirmRequest :=
  { id := some 1, user := u, verification_code := some code }

/-- The row of the scenario after its reservation by `org7` at time 10 with
the draw 1/2. -/
def scenarioReserved : Donation :=
  reserveSet
    { id := 1, user := org7, pickup_time := "2024-01-01T10:00",
      pickup_person_name := "Ana Ruiz", pickup_person_id := "1029384756" }
    "550000" 10 (freshDonation donor3.id scenarioColumns 0)

/-- The row of the scenario once the donor has accepted the pickup at time 20. -/
def scenarioAccepted : Donation :=
  acceptSet 20 scenarioReserved

/-- The confirm request of the actor `u` for the donation `k` with the code
`code`. -/
def confirmWith (k : Nat) (u : User) (code : String) : ConfirmRequest :=
  { id := some k, user := u, verification_code := some code }

/-- The reserve request of the actor `u` for the donation `k`. -/
def reserveWith (k : Nat) (u : User) (pickup_time pickup_person_name pickup_person_id :
    Option String) : ReserveRequest :=
  { id := some k
    user := u
    pickup_time := pickup_time
    pickup_person_name := pickup_person_name
    pickup_person_id := pickup_person_id }

/-- The business-confirm request of the actor `u` for the donation `k`. -/
def businessWith (k : Nat) (u : User) (accept : Bool) : BusinessConfirmRequest :=
  { id := some k, user := u, accept := some accept }

/-- The three logistics fields of a reserve request are present: each is a
non-empty string, which is what the handler tests. -/
def logisticsPresent (pickup_time pickup_person_name pickup_person_id : Option String) : Bool :=
  truthy pickup_time && truthy pickup_person_name && truthy pickup_person_id

/-- The `pickup_person_id` of a request has between 6 and 20 UTF-16 code
units. -/
def idLengthInRange (pickup_person_id : Option String) : Bool :=
  decide (6 ≤ utf16Length (pickup_person_id.getD "")) &&
    decide (utf16Length (pickup_person_id.getD "") ≤ 20)

/-- The table holds the donation `k` with `status = available`. -/
def isAvailable (s : Store) (k : Nat) : Bool :=
  match s k with
  | some d => decide (d.status = Status.available)
  | none => false

/-- The row of `selfStore` after its reservation by `org7`, its own donor, at
time 10 with the draw 1/2, and its acceptance by `org7` at time 20. -/
def selfAccepted : Donation :=
  acceptSet 20
    (reserveSet
      { id := 1, user := org7, pickup_time := "2024-01-01T10:00",
        pickup_person_name := "Ana Ruiz", pickup_person_id := "1029384756" }
      "550000" 10 (freshDonation org7.id scenarioColumns 0))

/-- The donation a call names: the parsed `:id` of its route. -/
def Call.id : Call → Option Nat
  | .reserve q _ _ => q.id
  | .businessConfirm q _ => q.id
  | .confirm q _ => q.id

/-! ## Creation of donations -/

/-- JavaScript built-ins that the embedding takes as given:
`Number.parseFloat` on a string (`none` for `NaN`; a string that parses to an
infinity is outside the model) and `String.prototype.toLowerCase`. -/
structure Builtins where
  parseFloat : String → Option ℚ
  toLowerCase : String → String

/-- A JSON or column value read as a number: absent (`undefined` or `null`),
a number, or a string. -/
inductive JsNumeric where
  | absent
  | number (q : ℚ)
  | text (s : String)
  deriving DecidableEq

/-- JavaScript truthiness of such a value: `0` and `""` are falsy. -/
def JsNumeric.truthy : JsNumeric → Bool
  | .absent => false
  | .number q => decide (q ≠ 0)
  | .text s => s != ""

/-- JavaScript `a || b`. -/
def JsNumeric.orElse (a b : JsNumeric) : JsNumeric :=
  if a.truthy then a else b

/-- `Number.parseFloat(v)`, `none` for `NaN`. -/
def Builtins.parseFloatOf (js : Builtins) : JsNumeric → Option ℚ
  | .absent => none
  | .number q => some q
  | .text s => js.parseFloat s

/-- The integer `n` of `x.toFixed(6)`: the one nearest to `|x| * 10^6`, the
larger one on a tie. -/
def microUnits (x : ℚ) : Nat :=
  ⌊|x| * 1000000 + 1 / 2⌋.toNat

/-- Six decimal digits of a number below one million, zero padded. -/
def sixDigits (m : Nat) : String :=
  String.mk [Nat.digitChar (m / 100000 % 10), Nat.digitChar (m / 10000 % 10),
    Nat.digitChar (m / 1000 % 10), Nat.digitChar (m / 100 % 10),
    Nat.digitChar (m / 10 % 10), Nat.digitChar (m % 10)]

/-- `x.toFixed(6)` (for `|x| < 10^21`). -/
def toFixed6 (x : ℚ) : String :=
  (if x < 0 then "-" else "") ++ toString (microUnits x / 1000000) ++ "." ++
    sixDigits (microUnits x % 1000000)

/-- `Number.parseFloat(x.toFixed(6))`: `x` rounded to six decimals, half away
from zero. -/
def round6 (x : ℚ) : ℚ :=
  (if x < 0 then -1 else 1) * (microUnits x : ℚ) / 1000000

/-- Body fields of one donation to create: the body of `POST /api/donations`
and each item of `POST /api/donations/batch`. `quantity` is a JSON integer and
`weight` a JSON number. -/
structure DonationFields where
  title : Option String
  description : Option String
  category : Option String
  quantity : Option Int
  weight : Option ℚ
  donation_reason : Option String
  contact_info : Option String
  expiry_date : Option String
  pickup_address : Option String
  latitude : JsNumeric
  longitude : JsNumeric
  pickup_latitude : JsNumeric
  pickup_longitude : JsNumeric
  deriving DecidableEq

/-- `pickup_latitude || latitude`. -/
def DonationFields.finalLatitude (b : DonationFields) : JsNumeric :=
  b.pickup_latitude.orElse b.latitude

/-- `pickup_longitude || longitude`. -/
def DonationFields.finalLongitude (b : DonationFields) : JsNumeric :=
  b.pickup_longitude.orElse b.longitude

/-- Truthiness of a JSON integer that may be absent. -/
def truthyInt : Option Int → Bool
  | some n => decide (n ≠ 0)
  | none => false

/-- The three validation steps shared by `POST /api/donations` (lines 619-661)
and by the loop of `POST /api/donations/batch` (lines 738-760): the text of the
first error, or `none` when the fields pass. -/
def validationError (js : Builtins) (b : DonationFields) : Option String :=
  if !truthy b.title || !truthy b.description || !truthy b.category
      || !truthyInt b.quantity then
    some "Los campos título, descripción, categoría y cantidad son requeridos"
  else if !b.finalLatitude.truthy || !b.finalLongitude.truthy then
    some "Las coordenadas de ubicación son requeridas"
  else if (js.parseFloatOf b.finalLatitude).isNone
      || (js.parseFloatOf b.finalLongitude).isNone then
    some "Las coordenadas deben ser números válidos"
  else
    none

/-- The parameters of the `INSERT` (lines 684-698 and 782-796). -/
def insertColumns (js : Builtins) (b : DonationFields) : NewDonation :=
  let lat := (js.parseFloatOf b.finalLatitude).getD 0
  let lng := (js.parseFloatOf b.finalLongitude).getD 0
  let address :=
    if truthy b.pickup_address then b.pickup_address.getD ""
    else "Lat: " ++ toFixed6 lat ++ ", Lng: " ++ toFixed6 lng
  { title := jsTrim (b.title.getD "")
    description := jsTrim (b.description.getD "")
    category := jsTrim (js.toLowerCase (b.category.getD ""))
    quantity := b.quantity.getD 0
    weight := match b.weight with
      | some w => if w = 0 then none else some w
      | none => none
    donation_reason :=
      if truthy b.donation_reason then some (jsTrim (b.donation_reason.getD "")) else none
    contact_info :=
      if truthy b.contact_info then some (jsTrim (b.contact_info.getD "")) else none
    expiry_date := if truthy b.expiry_date then b.expiry_date else none
    pickup_address := jsTrim address
    pickup_latitude := round6 lat
    pickup_longitude := round6 lng }

/-- The `donations` table with its `AUTO_INCREMENT` counter. -/
structure Db where
  rows : Store
  nextId : Nat

/-- One `INSERT INTO donations ... VALUES (...)` by the actor `donor`: the new
table and `insertId`. -/
def insertDonation (db : Db) (donor : Nat) (f : NewDonation) (now : Nat) : Db × Nat :=
  ({ rows := Function.update db.rows db.nextId (some (freshDonation donor f now))
     nextId := db.nextId + 1 }, db.nextId)

/-- What the two creating handlers send. -/
inductive CreateResponse where
  | error (status : Nat) (error : String)
  | created (message : String) (donationId : Nat) (latitude longitude : ℚ)
  | createdBatch (message : String) (donationIds : List Nat) (count : Nat)
  deriving DecidableEq

/-- Request of `POST /api/donations`. -/
structure CreateRequest where
  user : User
  body : DonationFields

/-- `POST /api/donations` (lines 599-715). No statement reads
`req.user.userType`. -/
def create (js : Builtins) (db : Db) (q : CreateRequest) (now : Nat) : Db × CreateResponse :=
  match validationError js q.body with
  | some e => (db, .error 400 e)
  | none =>
    let f := insertColumns js q.body
    let r := insertDonation db q.user.id f now
    (r.1, .created "Donación creada exitosamente" r.2 f.pickup_latitude f.pickup_longitude)

/-- Request of `POST /api/donations/batch`; `donations` is `none` when the
body field is not an array. -/
structure BatchRequest where
  user : User
  donations : Option (List DonationFields)

/-- The validation loop of the batch handler (lines 735-761), from the index
`i` on: the index and error of the first item that fails. -/
def firstInvalid (js : Builtins) : List DonationFields → Nat → Option (Nat × String)
  | [], _ => none
  | b :: rest, i =>
    match validationError js b with
    | some e => some (i, e)
    | none => firstInvalid js rest (i + 1)

/-- The insertion loop of the batch handler (lines 769-800): the table and
`createdIds`. -/
def insertAll (js : Builtins) (donor : Nat) (now : Nat) :
    Db → List DonationFields → Db × List Nat
  | db, [] => (db, [])
  | db, b :: rest =>
    let r := insertDonation db donor (insertColumns js b) now
    let rs := insertAll js donor now r.1 rest
    (rs.1, r.2 :: rs.2)

/-- `POST /api/donations/batch` (lines 717-821), the statements of its
transaction run without a store failure. -/
def createBatch (js : Builtins) (db : Db) (q : BatchRequest) (now : Nat) :
    Db × CreateResponse :=
  match q.donations with
  | none => (db, .error 400 "Debe proporcionar un array de donaciones")
  | some [] => (db, .error 400 "Debe proporcionar un array de donaciones")
  | some (b :: rest) =>
    if (b :: rest).length > 20 then
      (db, .error 400 "No se pueden crear más de 20 donaciones a la vez")
    else
      match firstInvalid js (b :: rest) 0 with
      | some (i, e) => (db, .error 400 ("Donación " ++ toString (i + 1) ++ ": " ++ e))
      | none =>
        let r := insertAll js q.user.id now db (b :: rest)
        (r.1, .createdBatch (toString r.2.length ++ " donaciones creadas exitosamente")
          r.2 r.2.length)

/-- Built-ins for the examples: `toLowerCase` on ASCII letters, and a
`parseFloat` that knows the two coordinate strings of the examples. -/
def exampleBuiltins : Builtins :=
  { parseFloat := fun s =>
      if s = "4.81" then some (481 / 100)
      else if s = "-75.69" then some (-7569 / 100)
      else none
    toLowerCase := fun s => s.map Char.toLower }

/-- The body of the scenario: bread, quantity 5, category bakery, latitude
4.81 and longitude -75.69. -/
def scenarioBody : DonationFields :=
  { title := some "Bread"
    description := some "Bread"
    category := some "bakery"
    quantity := some 5
    weight := none
    donation_reason := none
    contact_info := none
    expiry_date := none
    pickup_address := none
    latitude := JsNumeric.number (481 / 100)
    longitude := JsNumeric.number (-7569 / 100)
    pickup_latitude := JsNumeric.absent
    pickup_longitude := JsNumeric.absent }

/-- The empty table, whose first `insertId` is 1. -/
def emptyDb : Db :=
  { rows := fun _ => none, nextId := 1 }

/-- An item fails validation: title, description, category or quantity is
missing, a coordinate is missing, or a coordinate is not numeric. -/
def itemInvalid (js : Builtins) (b : DonationFields) : Bool :=
  !truthy b.title || !truthy b.description || !truthy b.category || !truthyInt b.quantity
    || !b.finalLatitude.truthy || !b.finalLongitude.truthy
    || (js.parseFloatOf b.finalLatitude).isNone || (js.parseFloatOf b.finalLongitude).isNone

/-! ## `cleanDonation` -/

/-- A row object as the list queries hand it to `cleanDonation`. A column that
is `NULL` or not selected is `none` (`absent` for the numeric ones). -/
structure RawDonation where
  id : Option Nat
  title : Option String
  description : Option String
  category : Option String
  quantity : Option Int
  weight : JsNumeric
  donation_reason : Option String
  contact_info : Option String
  expiry_date : Option String
  pickup_address : Option String
  pickup_latitude : JsNumeric
  pickup_longitude : JsNumeric
  status : Option String
  donor_id : Option Nat
  donor_name : Option String
  donor_phone : Option String
  donor_email : Option String
  reserved_by : Option Nat
  reserved_at : Option Nat
  completed_at : Option Nat
  created_at : Option Nat
  updated_at : Option Nat
  donor_confirmed : Option Bool
  recipient_confirmed : Option Bool
  donor_confirmed_at : Option Nat
  recipient_confirmed_at : Option Nat
  pickup_time : Option String
  pickup_person_name : Option String
  pickup_person_id : Option String
  verification_code : Option String
  business_confirmed : Option Bool
  business_confirmed_at : Option Nat
  deriving DecidableEq

/-- The record that `cleanDonation` returns. -/
structure CleanDonation where
  id : Nat
  title : String
  description : String
  category : String
  quantity : Int
  weight : Option ℚ
  donation_reason : Option String
  contact_info : Option String
  expiry_date : Option String
  pickup_address : String
  pickup_latitude : ℚ
  pickup_longitude : ℚ
  latitude : ℚ
  longitude : ℚ
  status : String
  donor_id : Option Nat
  donor_name : String
  donor_phone : Option String
  donor_email : Option String
  reserved_by : Option Nat
  reserved_at : Option Nat
  completed_at : Option Nat
  created_at : Nat
  updated_at : Nat
  donor_confirmed : Bool
  recipient_confirmed : Bool
  donor_confirmed_at : Option Nat
  recipient_confirmed_at : Option Nat
  pickup_time : Option String
  pickup_person_name : Option String
  pickup_person_id : Option String
  verification_code : Option String
  business_confirmed : Option Bool
  business_confirmed_at : Option Nat
  deriving DecidableEq

/-- Truthiness of a number that may be absent: `0` is falsy. -/
def truthyNat : Option Nat → Bool
  | some n => decide (n ≠ 0)
  | none => false

/-- `v ? String(v).trim() : null` for a string that may be absent. -/
def trimmedOrNull (v : Option String) : Option String :=
  if truthy v then some (jsTrim (v.getD "")) else none

/-- `String(v || dflt)` for a string that may be absent. -/
def stringOr (v : Option String) (dflt : String) : String :=
  if truthy v then v.getD "" else dflt

/-- The coordinates after the fallback of lines 58-64, before rounding:
the parsed pair, or the jittered fallback point when a component is `NaN` or
zero; `rLat` and `rLng` are the two draws of `Math.random()`. -/
def fallbackCoordinates (js : Builtins) (rLat rLng : ℚ) (d : RawDonation) : ℚ × ℚ :=
  match js.parseFloatOf d.pickup_latitude, js.parseFloatOf d.pickup_longitude with
  | some lat, some lng =>
    if lat = 0 ∨ lng = 0 then
      (48133 / 10000 + (rLat - 1 / 2) * (2 / 100), -756961 / 10000 + (rLng - 1 / 2) * (2 / 100))
    else (lat, lng)
  | _, _ =>
    (48133 / 10000 + (rLat - 1 / 2) * (2 / 100), -756961 / 10000 + (rLng - 1 / 2) * (2 / 100))

/-- `cleanDonation` (lines 49-102). The input is `none` when it is not an
object; `now` is the clock of `new Date()`. -/
def cleanDonation (js : Builtins) (rLat rLng : ℚ) (now : Nat) :
    Option RawDonation → Option CleanDonation
  | none => none
  | some d =>
    if !truthyNat d.id || !truthy d.title || !truthy d.category then none
    else
      let p := fallbackCoordinates js rLat rLng d
      some
        { id := d.id.getD 0
          title := jsTrim (d.title.getD "")
          description := jsTrim (stringOr d.description "")
          category := jsTrim (js.toLowerCase (d.category.getD ""))
          quantity := match d.quantity with
            | some n => if n = 0 then 1 else n
            | none => 1
          weight := if d.weight.truthy then js.parseFloatOf d.weight else none
          donation_reason := trimmedOrNull d.donation_reason
          contact_info := trimmedOrNull d.contact_info
          expiry_date := if truthy d.expiry_date then d.expiry_date else none
          pickup_address := jsTrim (stringOr d.pickup_address "")
          pickup_latitude := round6 p.1
          pickup_longitude := round6 p.2
          latitude := round6 p.1
          longitude := round6 p.2
          status := js.toLowerCase (stringOr d.status "available")
          donor_id := if truthyNat d.donor_id then d.donor_id else none
          donor_name := jsTrim (stringOr d.donor_name "Donante anónimo")
          donor_phone := trimmedOrNull d.donor_phone
          donor_email := trimmedOrNull d.donor_email
          reserved_by := if truthyNat d.reserved_by then d.reserved_by else none
          reserved_at := d.reserved_at
          completed_at := d.completed_at
          created_at := d.created_at.getD now
          updated_at := d.updated_at.getD now
          donor_confirmed := d.donor_confirmed.getD false
          recipient_confirmed := d.recipient_confirmed.getD false
          donor_confirmed_at := d.donor_confirmed_at
          recipient_confirmed_at := d.recipient_confirmed_at
          pickup_time := trimmedOrNull d.pickup_time
          pickup_person_name := trimmedOrNull d.pickup_person_name
          pickup_person_id := trimmedOrNull d.pickup_person_id
          verification_code := trimmedOrNull d.verification_code
          business_confirmed := d.business_confirmed
          business_confirmed_at := d.business_confirmed_at }

/-- `rows.map(cleanDonation).filter((donation) => donation !== null)`
(lines 555 and 590); `draws i` are the two draws of the call on the row `i`. -/
def cleanRows (js : Builtins) (draws : Nat → ℚ × ℚ) (now : Nat) (rows : List RawDonation) :
    List (Option CleanDonation) :=
  (rows.enum.map (fun p => cleanDonation js (draws p.1).1 (draws p.1).2 now (some p.2))).filter
    (fun c => c.isSome)

/-- An emitted record read back as an input object of `cleanDonation`. -/
def CleanDonation.asInput (c : CleanDonation) : RawDonation :=
  { id := some c.id
    title := some c.title
    description := some c.description
    category := some c.category
    quantity := some c.quantity
    weight := match c.weight with
      | some w => JsNumeric.number w
      | none => JsNumeric.absent
    donation_reason := c.donation_reason
    contact_info := c.contact_info
    expiry_date := c.expiry_date
    pickup_address := some c.pickup_address
    pickup_latitude := JsNumeric.number c.pickup_latitude
    pickup_longitude := JsNumeric.number c.pickup_longitude
    status := some c.status
    donor_id := c.donor_id
    donor_name := some c.donor_name
    donor_phone := c.donor_phone
    donor_email := c.donor_email
    reserved_by := c.reserved_by
    reserved_at := c.reserved_at
    completed_at := c.completed_at
    created_at := some c.created_at
    updated_at := some c.updated_at
    donor_confirmed := some c.donor_confirmed
    recipient_confirmed := some c.recipient_confirmed
    donor_confirmed_at := c.donor_confirmed_at
    recipient_confirmed_at := c.recipient_confirmed_at
    pickup_time := c.pickup_time
    pickup_person_name := c.pickup_person_name
    pickup_person_id := c.pickup_person_id
    verification_code := c.verification_code
    business_confirmed := c.business_confirmed
    business_confirmed_at := c.business_confirmed_at }

/-- The row of the scenario as the list query returns it, with the given id,
title and latitude. -/
def scenarioRaw (id : Nat) (title : String) (latitude : ℚ) : RawDonation :=
  { id := some id
    title := some title
    description := some "Bread"
    category := some "Bakery"
    quantity := some 5
    weight := JsNumeric.absent
    donation_reason := none
    contact_info := none
    expiry_date := none
    pickup_address := some "Lat: 4.810000, Lng: -75.690000"
    pickup_latitude := JsNumeric.number latitude
    pickup_longitude := JsNumeric.number (-7569 / 100)
    status := some "available"
    donor_id := some 3
    donor_name := some "Panadería Sol"
    donor_phone := none
    donor_email := none
    reserved_by := none
    reserved_at := none
    completed_at := none
    created_at := some 0
    updated_at := some 0
    donor_confirmed := some false
    recipient_confirmed := some false
    donor_confirmed_at := none
    recipient_confirmed_at := none
    pickup_time := none
    pickup_person_name := none
    pickup_person_id := none
    verification_code := none
    business_confirmed := none
    business_confirmed_at := none }

/-! ## Lemmas on the store statements -/

theorem updateById_fst_apply (s : Store) (k : Nat) (f : Donation → Donation) (j : Nat) :
    (updateById s k f).1 j = if j = k then (s k).map f else s j := by
  unfold updateById
  cases h : s k with
  | none => by_cases hj : j = k <;> simp [hj, h]
  | some d => by_cases hj : j = k <;> simp [hj, Function.update]

theorem updateById_snd (s : Store) (k : Nat) (f : Donation → Donation) :
    (updateById s k f).2 = if (s k).isSome then 1 else 0 := by
  unfold updateById
  cases h : s k <;> simp

theorem selectAvailable_length (s : Store) (k : Nat) :
    (selectAvailable s k).length = 0 ↔ ¬ ∃ d, s k = some d ∧ d.status = Status.available := by
  unfold selectAvailable selectById
  cases h : s k with
  | none => simp
  | some d => by_cases hd : d.status = Status.available <;> simp [hd]

theorem truthy_iff (o : Option String) : truthy o = true ↔ ∃ v, o = some v ∧ v ≠ "" := by
  cases o <;> simp [truthy]

theorem utf16Length_empty : utf16Length "" = 0 := rfl

theorem reserveCheck_ok (s : Store) (q : ReserveRequest) (p : ReservePending) :
    reserveCheck s q = .ok p ↔
      ∃ k pt pn pid d, q.id = some k ∧ q.user.userType = "organization" ∧
        q.pickup_time = some pt ∧ pt ≠ "" ∧ q.pickup_person_name = some pn ∧ pn ≠ "" ∧
        q.pickup_person_id = some pid ∧ 6 ≤ utf16Length pid ∧ utf16Length pid ≤ 20 ∧
        s k = some d ∧ d.status = Status.available ∧
        p = { id := k, user := q.user, pickup_time := pt, pickup_person_name := pn,
              pickup_person_id := pid } := by
  obtain ⟨id, user, pt, pn, pid⟩ := q
  unfold reserveCheck
  cases id with
  | none => simp
  | some k =>
    by_cases hu : user.userType = "organization"
    · cases pt with
      | none => simp [hu, truthy]
      | some pt =>
        cases pn with
        | none => simp [hu, truthy]
        | some pn =>
          cases pid with
          | none => simp [hu, truthy]
          | some pid =>
            by_cases h1 : pt = ""
            · simp [hu, truthy, h1]
            by_cases h2 : pn = ""
            · simp [hu, truthy, h2]
            by_cases h3 : pid = ""
            · simp [hu, truthy, h3, utf16Length_empty]
            by_cases h4 : utf16Length pid < 6
            · simp [hu, truthy, h1, h2, h3, h4]
            by_cases h5 : utf16Length pid > 20
            · simp [hu, truthy, h1, h2, h3, h4, h5]
            by_cases h6 : (selectAvailable s k).length = 0
            · have h6' := (selectAvailable_length s k).1 h6
              simp [hu, truthy, h1, h2, h3, h4, h5, h6]
              intro _ _ d hd hst
              exact absurd ⟨d, hd, hst⟩ h6'
            · have h6' : ∃ d, s k = some d ∧ d.status = Status.available := by
                by_contra hc
                exact h6 ((selectAvailable_length s k).2 hc)
              obtain ⟨d, hd, hst⟩ := h6'
              simp [hu, truthy, h1, h2, h3, h4, h5, h6, hd, hst]
              constructor
              · intro h; subst h; refine ⟨by omega, by omega, rfl⟩
              · rintro ⟨_, _, h⟩; exact h.symm
    · simp [hu]

/-! ## Lemmas on the handlers -/

theorem selectById_eq (s : Store) (k : Nat) : selectById s k = (s k).toList := rfl

theorem businessConfirmCheck_ok (s : Store) (q : BusinessConfirmRequest) (p : BusinessPending) :
    businessConfirmCheck s q = .ok p ↔
      ∃ k a d, q.id = some k ∧ q.accept = some a ∧ s k = some d ∧
        d.donor_id = q.user.id ∧ d.status = Status.reserved ∧
        d.business_confirmed ≠ some true ∧ p = { id := k, accept := a } := by
  obtain ⟨id, user, accept⟩ := q
  unfold businessConfirmCheck
  cases id with
  | none => simp
  | some k =>
    cases accept with
    | none => simp
    | some a =>
      cases hd : s k with
      | none => simp [selectById_eq, hd]
      | some d =>
        by_cases h1 : d.donor_id = user.id
        · by_cases h2 : d.status = Status.reserved
          · by_cases h3 : d.business_confirmed = some true
            · simp [selectById_eq, hd, h1, h2, h3]
            · simp [selectById_eq, hd, h1, h2, h3]
              constructor
              · intro h; exact h.symm
              · intro h; exact h.symm
          · simp [selectById_eq, hd, h1, h2]
        · simp [selectById_eq, hd, h1]

theorem confirmCheck_ok (s : Store) (q : ConfirmRequest) (p : ConfirmPending)
    (h : confirmCheck s q = .ok p) :
    ∃ k c d, q.id = some k ∧ q.verification_code = some c ∧ c ≠ "" ∧ s k = some d ∧
      p.id = k ∧ d.status = Status.reserved ∧ d.business_confirmed = some true ∧
      d.verification_code = some (jsTrim c) ∧
      (p.side = Side.donor → d.donor_id = q.user.id ∧ d.donor_confirmed ≠ some true) ∧
      (p.side = Side.recipient → d.donor_id ≠ q.user.id ∧ d.reserved_by = some q.user.id ∧
        d.recipient_confirmed ≠ some true) ∧
      p.bothConfirmed =
        ((d.donor_confirmed.getD false || decide (d.donor_id = q.user.id)) &&
         (d.recipient_confirmed.getD false || decide (d.reserved_by = some q.user.id))) := by
  obtain ⟨id, user, code⟩ := q
  unfold confirmCheck at h
  cases id with
  | none => simp at h
  | some k =>
    cases code with
    | none => simp [truthy] at h
    | some c =>
      by_cases hc : c = ""
      · simp [truthy, hc] at h
      cases hd : s k with
      | none => simp [truthy, hc, selectById_eq, hd] at h
      | some d =>
        simp only [truthy, selectById_eq, hd, Option.toList] at h
        by_cases h1 : d.status = Status.reserved
        · by_cases h2 : d.business_confirmed = some true
          · by_cases h3 : d.verification_code = some (jsTrim c)
            · refine ⟨k, c, d, rfl, rfl, hc, hd, ?_⟩
              by_cases h4 : d.donor_id = user.id
              · by_cases h5 : d.donor_confirmed = some true
                · simp [hc, h1, h2, h3, h4, h5] at h
                · have h5' : d.donor_confirmed.getD false = false := by
                    cases hx : d.donor_confirmed with
                    | none => rfl
                    | some b => cases b <;> simp_all
                  simp [hc, h1, h2, h3, h4, h5'] at h
                  subst h
                  simp [h1, h2, h3, h4, h5, h5']
              · by_cases h6 : d.reserved_by = some user.id
                · by_cases h7 : d.recipient_confirmed = some true
                  · simp [hc, h1, h2, h3, h4, h6, h7] at h
                  · have h7' : d.recipient_confirmed.getD false = false := by
                      cases hx : d.recipient_confirmed with
                      | none => rfl
                      | some b => cases b <;> simp_all
                    simp [hc, h1, h2, h3, h4, h6, h7'] at h
                    subst h
                    simp [h1, h2, h3, h4, h6, h7, h7']
                · simp [hc, h1, h2, h3, h4, h6] at h
            · simp [hc, h1, h2, h3] at h
          · have h2' : d.business_confirmed.getD false = false := by
              cases hx : d.business_confirmed with
              | none => rfl
              | some b => cases b <;> simp_all
            simp [hc, h1, h2'] at h
        · simp [hc, h1] at h

theorem reserve_of_error (s : Store) (q : ReserveRequest) (rnd : ℚ) (now : Nat) (r : Response)
    (h : reserveCheck s q = .error r) : reserve s q rnd now = (s, r) := by
  simp [reserve, h]

theorem reserve_of_ok (s : Store) (q : ReserveRequest) (rnd : ℚ) (now : Nat)
    (p : ReservePending) (d : Donation) (h : reserveCheck s q = .ok p) (hd : s p.id = some d) :
    reserve s q rnd now =
      (Function.update s p.id (some (reserveSet p (verificationCode rnd) now d)),
       .reserved "Donación reservada exitosamente. Esperando confirmación del comercio."
         (verificationCode rnd) p.pickup_time p.pickup_person_name) := by
  simp [reserve, h, reserveUpdate, updateById, hd]

theorem businessConfirm_of_error (s : Store) (q : BusinessConfirmRequest) (now : Nat)
    (r : Response) (h : businessConfirmCheck s q = .error r) :
    businessConfirm s q now = (s, r) := by
  simp [businessConfirm, h]

theorem businessConfirm_of_ok (s : Store) (q : BusinessConfirmRequest) (now : Nat)
    (p : BusinessPending) (d : Donation) (h : businessConfirmCheck s q = .ok p)
    (hd : s p.id = some d) :
    businessConfirm s q now =
      if p.accept then
        (Function.update s p.id (some (acceptSet now d)),
         .message "Hora de recogida aceptada. La organización puede proceder con la recogida.")
      else
        (Function.update s p.id (some (rejectSet d)),
         .message "Reserva rechazada. La donación está disponible nuevamente.") := by
  cases hp : p.accept <;> simp [businessConfirm, h, businessConfirmUpdate, updateById, hd, hp]

theorem confirm_of_error (s : Store) (q : ConfirmRequest) (now : Nat) (r : Response)
    (h : confirmCheck s q = .error r) : confirm s q now = (s, r) := by
  simp [confirm, h]

theorem confirm_of_ok (s : Store) (q : ConfirmRequest) (now : Nat)
    (p : ConfirmPending) (d : Donation) (h : confirmCheck s q = .ok p) (hd : s p.id = some d) :
    confirm s q now =
      (Function.update s p.id (some (confirmSet p now d)), .message p.message) := by
  simp [confirm, h, confirmUpdate, updateById, hd]

/-- Every early answer of `reserve` is an error answer. -/
theorem reserveCheck_error (s : Store) (q : ReserveRequest) (r : Response)
    (h : reserveCheck s q = .error r) : ∃ c m, r = .error c m := by
  unfold reserveCheck at h
  split at h
  · simp at h; exact ⟨_, _, h.symm⟩
  · split at h
    · simp at h; exact ⟨_, _, h.symm⟩
    · split at h
      · simp at h; exact ⟨_, _, h.symm⟩
      · simp only at h
        split at h
        · simp at h; exact ⟨_, _, h.symm⟩
        · split at h
          · simp at h; exact ⟨_, _, h.symm⟩
          · simp at h

theorem businessConfirmCheck_error (s : Store) (q : BusinessConfirmRequest) (r : Response)
    (h : businessConfirmCheck s q = .error r) : ∃ c m, r = .error c m := by
  unfold businessConfirmCheck at h
  repeat' split at h
  all_goals first
    | (simp at h; exact ⟨_, _, h.symm⟩)
    | simp at h

theorem getD_false_of_ne_true (o : Option Bool) (h : o ≠ some true) : o.getD false = false := by
  cases o with
  | none => rfl
  | some b => cases b <;> simp_all

theorem confirmCheck_error (s : Store) (q : ConfirmRequest) (r : Response)
    (h : confirmCheck s q = .error r) : ∃ c m, r = .error c m := by
  obtain ⟨id, user, code⟩ := q
  unfold confirmCheck at h
  cases id with
  | none => simp at h; exact ⟨_, _, h.symm⟩
  | some k =>
    cases code with
    | none => simp [truthy] at h; exact ⟨_, _, h.symm⟩
    | some c =>
      by_cases hc : c = ""
      · simp [truthy, hc] at h; exact ⟨_, _, h.symm⟩
      cases hd : s k with
      | none => simp [truthy, hc, selectById_eq, hd] at h; exact ⟨_, _, h.symm⟩
      | some d =>
        simp only [truthy, selectById_eq, hd, Option.toList] at h
        by_cases h1 : d.status = Status.reserved
        · by_cases h2 : d.business_confirmed = some true
          · by_cases h3 : d.verification_code = some (jsTrim c)
            · by_cases h4 : d.donor_id = user.id
              · by_cases h5 : d.donor_confirmed = some true
                · simp [hc, h1, h2, h3, h4, h5] at h; exact ⟨_, _, h.symm⟩
                · simp [hc, h1, h2, h3, h4, getD_false_of_ne_true _ h5] at h
              · by_cases h6 : d.reserved_by = some user.id
                · by_cases h7 : d.recipient_confirmed = some true
                  · simp [hc, h1, h2, h3, h4, h6, h7] at h; exact ⟨_, _, h.symm⟩
                  · simp [hc, h1, h2, h3, h4, h6, getD_false_of_ne_true _ h7] at h
                · simp [hc, h1, h2, h3, h4, h6] at h; exact ⟨_, _, h.symm⟩
            · simp [hc, h1, h2, h3] at h; exact ⟨_, _, h.symm⟩
          · simp [hc, h1, getD_false_of_ne_true _ h2] at h; exact ⟨_, _, h.symm⟩
        · simp [hc, h1] at h; exact ⟨_, _, h.symm⟩

/-- Effect of one call on the row `k`: the row is left as it was, or it
existed and is rewritten by the `SET` clause of the handler, whose guards held
on the old row. -/
theorem run_row (s : Store) (c : Call) (k : Nat) :
    (c.run s).1 k = s k ∨
    ∃ d, s k = some d ∧
      ((d.status = Status.available ∧
          ∃ p code now, (c.run s).1 k = some (reserveSet p code now d)) ∨
       (d.status = Status.reserved ∧ d.business_confirmed ≠ some true ∧
          ∃ now, (c.run s).1 k = some (acceptSet now d)) ∨
       (d.status = Status.reserved ∧ d.business_confirmed ≠ some true ∧
          (c.run s).1 k = some (rejectSet d)) ∨
       (d.status = Status.reserved ∧ d.business_confirmed = some true ∧
          ∃ p now, (c.run s).1 k = some (confirmSet p now d))) := by
  cases c with
  | reserve q rnd now =>
    simp only [Call.run]
    cases h : reserveCheck s q with
    | error r => left; rw [reserve_of_error s q rnd now r h]
    | ok p =>
      obtain ⟨k', pt, pn, pid, d, hk, _, _, _, _, _, _, _, _, hd, hst, hp⟩ :=
        (reserveCheck_ok s q p).1 h
      have hid : p.id = k' := by rw [hp]
      rw [reserve_of_ok s q rnd now p d h (hid ▸ hd)]
      by_cases hj : k = p.id
      · right
        subst hj
        exact ⟨d, hid ▸ hd, Or.inl ⟨hst, p, verificationCode rnd, now, by simp⟩⟩
      · left; simp [Function.update, hj]
  | businessConfirm q now =>
    simp only [Call.run]
    cases h : businessConfirmCheck s q with
    | error r => left; rw [businessConfirm_of_error s q now r h]
    | ok p =>
      obtain ⟨k', a, d, hk, _, hd, _, hst, hb, hp⟩ := (businessConfirmCheck_ok s q p).1 h
      have hid : p.id = k' := by rw [hp]
      rw [businessConfirm_of_ok s q now p d h (hid ▸ hd)]
      by_cases hj : k = p.id
      · right
        subst hj
        refine ⟨d, hid ▸ hd, ?_⟩
        cases hacc : p.accept
        · exact Or.inr (Or.inr (Or.inl ⟨hst, hb, by simp⟩))
        · exact Or.inr (Or.inl ⟨hst, hb, now, by simp⟩)
      · left
        cases hacc : p.accept <;> simp [Function.update, hj]
  | confirm q now =>
    simp only [Call.run]
    cases h : confirmCheck s q with
    | error r => left; rw [confirm_of_error s q now r h]
    | ok p =>
      obtain ⟨k', c, d, hk, _, _, hd, hid, hst, hb, _⟩ := confirmCheck_ok s q p h
      rw [confirm_of_ok s q now p d h (hid ▸ hd)]
      by_cases hj : k = p.id
      · right
        subst hj
        exact ⟨d, hid ▸ hd, Or.inr (Or.inr (Or.inr ⟨hst, hb, p, now, by simp⟩))⟩
      · left; simp [Function.update, hj]

/-! ## Reservation columns and status (C2) -/

theorem logistics_step (s : Store) (c : Call) (k : Nat)
    (h : ∀ d, s k = some d →
      (d.status = Status.available → logisticsNull d) ∧
      (d.status ≠ Status.available → logisticsSet d)) :
    ∀ d, (c.run s).1 k = some d →
      (d.status = Status.available → logisticsNull d) ∧
      (d.status ≠ Status.available → logisticsSet d) := by
  intro d' hd'
  rcases run_row s c k with heq | ⟨d, hd, hcase⟩
  · exact h d' (heq ▸ hd')
  · have hinv := h d hd
    rcases hcase with ⟨_, p, code, now, hr⟩ | ⟨hst, _, now, hr⟩ | ⟨hst, _, hr⟩ |
      ⟨hst, _, p, now, hr⟩
    · rw [hr] at hd'; cases hd'
      simp [reserveSet, logisticsSet]
    · rw [hr] at hd'; cases hd'
      have := hinv.2 (by simp [hst])
      simpa [acceptSet, logisticsSet, logisticsNull, hst] using this
    · rw [hr] at hd'; cases hd'
      simp [rejectSet, logisticsNull]
    · rw [hr] at hd'; cases hd'
      have := hinv.2 (by simp [hst])
      cases hside : p.side <;> cases hboth : p.bothConfirmed <;>
        simpa [confirmSet, logisticsSet, logisticsNull, hst, hside, hboth] using this

theorem logistics_runCalls (cs : List Call) (s : Store) (k : Nat)
    (h : ∀ d, s k = some d →
      (d.status = Status.available → logisticsNull d) ∧
      (d.status ≠ Status.available → logisticsSet d)) :
    ∀ d, runCalls s cs k = some d →
      (d.status = Status.available → logisticsNull d) ∧
      (d.status ≠ Status.available → logisticsSet d) := by
  induction cs generalizing s with
  | nil => simpa [runCalls] using h
  | cons c cs ih =>
    simp only [runCalls]
    exact ih (c.run s).1 (logistics_step s c k h)

/-- C2: in every state a row reaches from a freshly created donation through
any sequence of reserve, business-confirm and confirm calls run one after
another, the verification code, `reserved_by` and the three pickup columns are
all non-null exactly when the status is reserved or completed, and all null
when the status is available. -/
theorem logistics_iff_reserved_or_completed (s0 : Store) (k donor : Nat) (f : NewDonation)
    (t0 : Nat) (cs : List Call) (d : Donation)
    (h0 : s0 k = some (freshDonation donor f t0))
    (hd : runCalls s0 cs k = some d) :
    (logisticsSet d ↔ d.status = Status.reserved ∨ d.status = Status.completed) ∧
    (d.status = Status.available → logisticsNull d) := by
  have hinv := logistics_runCalls cs s0 k (by
    intro d0 hd0
    rw [h0] at hd0; cases hd0
    simp [freshDonation, logisticsNull]) d hd
  refine ⟨⟨?_, ?_⟩, hinv.1⟩
  · intro hset
    cases hst : d.status with
    | available =>
      have := hinv.1 hst
      exact absurd this.1 hset.1
    | reserved => simp
    | completed => simp
  · intro hst
    apply hinv.2
    rcases hst with hst | hst <;> simp [hst]

/-- Witness of `logistics_iff_reserved_or_completed`: the donation of the
scenario after its reservation by `org7`. -/
theorem logistics_iff_reserved_or_completed_witness :
    (logisticsSet scenarioReserved ↔
      scenarioReserved.status = Status.reserved ∨
      scenarioReserved.status = Status.completed) ∧
    (scenarioReserved.status = Status.available → logisticsNull scenarioReserved) :=
  logistics_iff_reserved_or_completed scenarioStore 1 donor3.id scenarioColumns 0
    [Call.reserve (scenarioReserve org7) (1 / 2) 10] scenarioReserved
    (by decide!) (by decide!)

/-! ## Interleaved store statements -/

/-- A call in flight that performs its two store statements with nothing in
between is the handler run in one piece. -/
theorem step_step_eq_run (s : Store) (c : Call) :
    ((InFlight.start c).step s).2.step ((InFlight.start c).step s).1 =
      ((c.run s).1, InFlight.done (c.run s).2) := by
  cases c with
  | reserve q rnd now =>
    cases h : reserveCheck s q <;> simp [InFlight.step, Call.run, reserve, h]
  | businessConfirm q now =>
    cases h : businessConfirmCheck s q <;> simp [InFlight.step, Call.run, businessConfirm, h]
  | confirm q now =>
    cases h : confirmCheck s q <;> simp [InFlight.step, Call.run, confirm, h]

/-! ## Completion without the recipient (C1) -/

/-- C1 (defect): an organization that created the donation 1 reserves it,
accepts the pickup as its donor and confirms once with the code; the three
calls succeed, the last one answers that both parties confirmed, and the row is
completed with `recipient_confirmed` still null. -/
theorem self_reservation_completed_without_recipient :
    (reserve selfStore (scenarioReserve org7) (1 / 2) 10).2 =
      Response.reserved "Donación reservada exitosamente. Esperando confirmación del comercio."
        "550000" "2024-01-01T10:00" "Ana Ruiz" ∧
    (businessConfirm (reserve selfStore (scenarioReserve org7) (1 / 2) 10).1
        (scenarioBusiness org7 true) 20).2 =
      Response.message
        "Hora de recogida aceptada. La organización puede proceder con la recogida." ∧
    (confirm (runCalls selfStore
        [Call.reserve (scenarioReserve org7) (1 / 2) 10,
         Call.businessConfirm (scenarioBusiness org7 true) 20])
        (scenarioConfirm org7 "550000") 30).2 =
      Response.message "¡Donación completada! Ambas partes confirmaron" ∧
    (runCalls selfStore
        [Call.reserve (scenarioReserve org7) (1 / 2) 10,
         Call.businessConfirm (scenarioBusiness org7 true) 20,
         Call.confirm (scenarioConfirm org7 "550000") 30] 1).map
      (fun d => (d.status, d.donor_confirmed, d.recipient_confirmed, d.business_confirmed)) =
      some (Status.completed, some true, none, some true) := by
  decide!

/-! ## Two reservations of one donation (C3) -/

/-- C3 (defect): two organizations reserve the available donation 1; both run
their availability `SELECT` before either runs its `UPDATE`. Both calls answer
with a success and a code, and the row ends reserved by the second one. -/
theorem reserve_race_both_succeed :
    (interleave scenarioStore
        [InFlight.start (Call.reserve (scenarioReserve org7) (1 / 2) 10),
         InFlight.start (Call.reserve (scenarioReserve org8) (1 / 4) 11)]
        [0, 1, 0, 1]).2.map InFlight.answer =
      [some (Response.reserved
          "Donación reservada exitosamente. Esperando confirmación del comercio."
          "550000" "2024-01-01T10:00" "Ana Ruiz"),
       some (Response.reserved
          "Donación reservada exitosamente. Esperando confirmación del comercio."
          "325000" "2024-01-01T10:00" "Ana Ruiz")] ∧
    ((interleave scenarioStore
        [InFlight.start (Call.reserve (scenarioReserve org7) (1 / 2) 10),
         InFlight.start (Call.reserve (scenarioReserve org8) (1 / 4) 11)]
        [0, 1, 0, 1]).1 1).map
      (fun d => (d.status, d.reserved_by, d.verification_code)) =
      some (Status.reserved, some 8, some "325000") := by
  decide!

/-! ## Two confirmations of one donation (C4) -/

/-- C4 (defect): the donation 1 is reserved by `org7` and accepted by its
donor; the donor and `org7` confirm with the right code and both run their
`SELECT` before either runs its `UPDATE`. Both calls succeed with the message
of a single confirmation, both flags end true, and the row stays reserved with
`completed_at` null: no call performs the transition to completed. -/
theorem confirm_race_never_completes :
    (interleave
        (runCalls scenarioStore
          [Call.reserve (scenarioReserve org7) (1 / 2) 10,
           Call.businessConfirm (scenarioBusiness donor3 true) 20])
        [InFlight.start (Call.confirm (scenarioConfirm donor3 "550000") 30),
         InFlight.start (Call.confirm (scenarioConfirm org7 "550000") 31)]
        [0, 1, 0, 1]).2.map InFlight.answer =
      [some (Response.message "Confirmación de donante registrada"),
       some (Response.message "Confirmación de organización registrada")] ∧
    ((interleave
        (runCalls scenarioStore
          [Call.reserve (scenarioReserve org7) (1 / 2) 10,
           Call.businessConfirm (scenarioBusiness donor3 true) 20])
        [InFlight.start (Call.confirm (scenarioConfirm donor3 "550000") 30),
         InFlight.start (Call.confirm (scenarioConfirm org7 "550000") 31)]
        [0, 1, 0, 1]).1 1).map
      (fun d => (d.status, d.donor_confirmed, d.recipient_confirmed, d.completed_at)) =
      some (Status.reserved, some true, some true, none) := by
  decide!

/-! ## Success of a handler -/

theorem reserve_success (s : Store) (q : ReserveRequest) (rnd : ℚ) (now : Nat)
    (h : (reserve s q rnd now).2.isSuccess = true) :
    ∃ p d, reserveCheck s q = .ok p ∧ s p.id = some d ∧ d.status = Status.available ∧
      q.id = some p.id := by
  cases hc : reserveCheck s q with
  | error r =>
    obtain ⟨c, m, hr⟩ := reserveCheck_error s q r hc
    rw [reserve_of_error s q rnd now r hc, hr] at h
    simp [Response.isSuccess] at h
  | ok p =>
    obtain ⟨k, pt, pn, pid, d, hk, _, _, _, _, _, _, _, _, hd, hst, hp⟩ :=
      (reserveCheck_ok s q p).1 hc
    have hid : p.id = k := by rw [hp]
    exact ⟨p, d, rfl, hid ▸ hd, hst, hid ▸ hk⟩

theorem businessConfirm_success (s : Store) (q : BusinessConfirmRequest) (now : Nat)
    (h : (businessConfirm s q now).2.isSuccess = true) :
    ∃ p d, businessConfirmCheck s q = .ok p ∧ s p.id = some d ∧ q.id = some p.id ∧
      q.accept = some p.accept ∧ d.donor_id = q.user.id ∧ d.status = Status.reserved ∧
      d.business_confirmed ≠ some true := by
  cases hc : businessConfirmCheck s q with
  | error r =>
    obtain ⟨c, m, hr⟩ := businessConfirmCheck_error s q r hc
    rw [businessConfirm_of_error s q now r hc, hr] at h
    simp [Response.isSuccess] at h
  | ok p =>
    obtain ⟨k, a, d, hk, ha, hd, hdon, hst, hb, hp⟩ := (businessConfirmCheck_ok s q p).1 hc
    have hid : p.id = k := by rw [hp]
    have hacc : p.accept = a := by rw [hp]
    exact ⟨p, d, rfl, hid ▸ hd, hid ▸ hk, hacc ▸ ha, hdon, hst, hb⟩

theorem confirm_success (s : Store) (q : ConfirmRequest) (now : Nat)
    (h : (confirm s q now).2.isSuccess = true) :
    ∃ p, confirmCheck s q = .ok p := by
  cases hc : confirmCheck s q with
  | error r =>
    obtain ⟨c, m, hr⟩ := confirmCheck_error s q r hc
    rw [confirm_of_error s q now r hc, hr] at h
    simp [Response.isSuccess] at h
  | ok p => exact ⟨p, rfl⟩

/-! ## Rejection after reservation (C5) -/

/-- C5 as stated fails: the donation of the scenario is reserved and then
rejected by its donor, both calls succeed, and `business_confirmed`, null after
creation, is false afterwards. -/
theorem reject_leaves_business_confirmed_false :
    (freshDonation donor3.id scenarioColumns 0).business_confirmed = none ∧
    (reserve scenarioStore (scenarioReserve org7) (1 / 2) 10).2.isSuccess = true ∧
    (businessConfirm (reserve scenarioStore (scenarioReserve org7) (1 / 2) 10).1
      (scenarioBusiness donor3 false) 20).2.isSuccess = true ∧
    ((businessConfirm (reserve scenarioStore (scenarioReserve org7) (1 / 2) 10).1
      (scenarioBusiness donor3 false) 20).1 1).map (fun d => d.business_confirmed) =
      some (some false) := by
  decide!

/-- C5 (amended): a successful reserve of a freshly created donation followed
by a successful business-confirm with `accept = false` leaves the row equal to
the freshly created one in every column except `business_confirmed`, which is
false. -/
theorem reject_undoes_reservation (s : Store) (k donor : Nat) (f : NewDonation) (t0 : Nat)
    (qr : ReserveRequest) (rnd : ℚ) (t1 : Nat) (qb : BusinessConfirmRequest) (t2 : Nat)
    (h0 : s k = some (freshDonation donor f t0))
    (hqr : qr.id = some k)
    (hr : (reserve s qr rnd t1).2.isSuccess = true)
    (hqb : qb.id = some k) (hacc : qb.accept = some false)
    (hb : (businessConfirm (reserve s qr rnd t1).1 qb t2).2.isSuccess = true) :
    (businessConfirm (reserve s qr rnd t1).1 qb t2).1 k =
      some { freshDonation donor f t0 with business_confirmed := some false } := by
  obtain ⟨p, d, hc, hd, _, hid⟩ := reserve_success s qr rnd t1 hr
  have hpk : p.id = k := by
    rw [hqr] at hid; exact (Option.some.inj hid).symm
  rw [hpk, h0] at hd
  cases hd
  rw [reserve_of_ok s qr rnd t1 p _ hc (by rw [hpk]; exact h0)] at hb ⊢
  obtain ⟨pb, db, hcb, hdb, hidb, haccb, _⟩ := businessConfirm_success _ qb t2 hb
  have hpbk : pb.id = k := by
    rw [hqb] at hidb; exact (Option.some.inj hidb).symm
  have hpacc : pb.accept = false := by
    rw [hacc] at haccb; exact (Option.some.inj haccb).symm
  rw [businessConfirm_of_ok _ qb t2 pb db hcb hdb]
  rw [hpbk, hpk] at hdb
  simp at hdb
  subst hdb
  simp [hpacc, hpbk, rejectSet, reserveSet, freshDonation]

/-- Witness of `reject_undoes_reservation`: the donation of the scenario,
reserved by `org7` and rejected by its donor. -/
theorem reject_undoes_reservation_witness :
    (businessConfirm (reserve scenarioStore (scenarioReserve org7) (1 / 2) 10).1
      (scenarioBusiness donor3 false) 20).1 1 =
      some { freshDonation donor3.id scenarioColumns 0 with business_confirmed := some false } :=
  reject_undoes_reservation scenarioStore 1 donor3.id scenarioColumns 0
    (scenarioReserve org7) (1 / 2) 10 (scenarioBusiness donor3 false) 20
    (by decide!) (by decide!) (by decide!) (by decide!) (by decide!) (by decide!)

/-! ## The verification code as a string -/

theorem digitChar_not_whitespace (m : Nat) : isJsWhitespace (Nat.digitChar m) = false := by
  by_cases h : m < 16
  · interval_cases m <;> rfl
  · have hstar : Nat.digitChar m = '*' := by
      unfold Nat.digitChar
      iterate 16 rw [if_neg (by omega)]
    rw [hstar]; rfl

theorem toDigitsCore_all (P : Char → Prop) (hP : ∀ m, P (Nat.digitChar m)) (fuel : Nat) :
    ∀ (n : Nat) (acc : List Char), (∀ c ∈ acc, P c) →
      ∀ c ∈ Nat.toDigitsCore 10 fuel n acc, P c := by
  induction fuel with
  | zero => intro n acc hacc c hc; simpa [Nat.toDigitsCore] using hacc c hc
  | succ fuel ih =>
    intro n acc hacc c hc
    simp only [Nat.toDigitsCore] at hc
    have hacc' : ∀ c ∈ Nat.digitChar (n % 10) :: acc, P c := by
      intro c hc
      rcases List.mem_cons.1 hc with h | h
      · rw [h]; exact hP _
      · exact hacc c h
    split at hc
    · exact hacc' c hc
    · exact ih _ _ hacc' c hc

theorem toDigitsCore_ne_nil (fuel : Nat) :
    ∀ (n : Nat) (acc : List Char), acc ≠ [] → Nat.toDigitsCore 10 fuel n acc ≠ [] := by
  induction fuel with
  | zero => intro n acc hacc; simpa [Nat.toDigitsCore] using hacc
  | succ fuel ih =>
    intro n acc _
    simp only [Nat.toDigitsCore]
    split
    · simp
    · exact ih _ _ (by simp)

theorem toDigits_ne_nil (n : Nat) : Nat.toDigits 10 n ≠ [] := by
  unfold Nat.toDigits
  simp only [Nat.toDigitsCore]
  split
  · simp
  · exact toDigitsCore_ne_nil _ _ _ (by simp)

theorem trimChars_of_no_whitespace (l : List Char)
    (h : ∀ c ∈ l, isJsWhitespace c = false) : trimChars l = l := by
  have key : ∀ l : List Char, (∀ c ∈ l, isJsWhitespace c = false) →
      l.dropWhile isJsWhitespace = l := by
    intro l hl
    cases l with
    | nil => rfl
    | cons a t => simp [List.dropWhile_cons, hl a (List.mem_cons_self a t)]
  unfold trimChars
  rw [key l h, key l.reverse (by intro c hc; exact h c (List.mem_reverse.1 hc)),
    List.reverse_reverse]

/-- The decimal rendering of an integer has no white space and is not empty. -/
theorem toString_int_chars (z : Int) :
    (toString z).data ≠ [] ∧ ∀ c ∈ (toString z).data, isJsWhitespace c = false := by
  have hnat : ∀ m : Nat, ∀ c ∈ (toString m).data, isJsWhitespace c = false := by
    intro m c hc
    have : (toString m).data = Nat.toDigits 10 m := rfl
    rw [this] at hc
    exact toDigitsCore_all (fun c => isJsWhitespace c = false) digitChar_not_whitespace
      _ _ _ (by simp) c hc
  have hnat' : ∀ m : Nat, (toString m).data ≠ [] := fun m => toDigits_ne_nil m
  cases z with
  | ofNat m =>
    have : (toString (Int.ofNat m)).data = (toString m).data := rfl
    rw [this]
    exact ⟨hnat' m, hnat m⟩
  | negSucc m =>
    have : (toString (Int.negSucc m)).data = '-' :: (toString (m + 1)).data := rfl
    rw [this]
    refine ⟨by simp, ?_⟩
    intro c hc
    rcases List.mem_cons.1 hc with h | h
    · rw [h]; rfl
    · exact hnat _ c h

theorem verificationCode_ne_empty (rnd : ℚ) : verificationCode rnd ≠ "" := by
  intro h
  have := (toString_int_chars ⌊toDouble (100000 + toDouble (rnd * 900000))⌋).1
  unfold verificationCode at h
  rw [h] at this
  exact this rfl

theorem jsTrim_verificationCode (rnd : ℚ) :
    jsTrim (verificationCode rnd) = verificationCode rnd := by
  unfold jsTrim verificationCode
  rw [trimChars_of_no_whitespace _
    (toString_int_chars ⌊toDouble (100000 + toDouble (rnd * 900000))⌋).2]

/-! ## Wrong code (C6) -/

/-- C6: for every donation, in any state, every actor and every submitted
code whose trimmed value differs from the stored verification code (a missing
code included), confirm answers with an error and leaves the table, hence every
column of the donation, unchanged. -/
theorem confirm_wrong_code_fails (s : Store) (k : Nat) (d : Donation) (q : ConfirmRequest)
    (now : Nat) (hd : s k = some d) (hq : q.id = some k)
    (hcode : ∀ c, q.verification_code = some c → d.verification_code ≠ some (jsTrim c)) :
    (confirm s q now).2.isSuccess = false ∧ (confirm s q now).1 = s := by
  cases hc : confirmCheck s q with
  | error r =>
    obtain ⟨c, m, hr⟩ := confirmCheck_error s q r hc
    rw [confirm_of_error s q now r hc, hr]
    exact ⟨rfl, rfl⟩
  | ok p =>
    obtain ⟨k', c, d', hk', hcq, _, hd', _, _, _, hvc, _⟩ := confirmCheck_ok s q p hc
    rw [hq] at hk'
    cases hk'
    rw [hd] at hd'
    cases hd'
    exact absurd hvc (hcode c hcq)

/-- Witness of `confirm_wrong_code_fails`: the accepted donation of the
scenario, whose code is 550000, and its donor submitting 000000. -/
theorem confirm_wrong_code_fails_witness :
    (confirm (singleRow 1 scenarioAccepted) (scenarioConfirm donor3 "000000") 30).2.isSuccess
      = false ∧
    (confirm (singleRow 1 scenarioAccepted) (scenarioConfirm donor3 "000000") 30).1 =
      singleRow 1 scenarioAccepted :=
  confirm_wrong_code_fails (singleRow 1 scenarioAccepted) 1 scenarioAccepted
    (scenarioConfirm donor3 "000000") 30 (by decide!) (by decide!)
    (by
      intro c hc
      have : c = "000000" := by
        simp [scenarioConfirm] at hc; exact hc.symm
      subst this
      decide!)

/-! ## The two confirmations one after the other (C7) -/

theorem confirmCheck_donor (s : Store) (k : Nat) (d : Donation) (u : User) (c : String)
    (hd : s k = some d) (hst : d.status = Status.reserved)
    (hb : d.business_confirmed = some true) (hc : c ≠ "")
    (hcode : d.verification_code = some (jsTrim c))
    (hu : d.donor_id = u.id) (hdc : d.donor_confirmed ≠ some true) :
    confirmCheck s (confirmWith k u c) =
      .ok { id := k, side := Side.donor
            bothConfirmed := d.recipient_confirmed.getD false || decide (d.reserved_by = some u.id)
            message :=
              if (d.recipient_confirmed.getD false || decide (d.reserved_by = some u.id)) = true
              then "¡Donación completada! Ambas partes confirmaron"
              else "Confirmación de donante registrada" } := by
  simp [confirmCheck, confirmWith, truthy, hc, selectById_eq, hd, hst, hb, hcode, hu,
    getD_false_of_ne_true _ hdc]

theorem confirmCheck_recipient (s : Store) (k : Nat) (d : Donation) (u : User) (c : String)
    (hd : s k = some d) (hst : d.status = Status.reserved)
    (hb : d.business_confirmed = some true) (hc : c ≠ "")
    (hcode : d.verification_code = some (jsTrim c))
    (hu : d.donor_id ≠ u.id) (hr : d.reserved_by = some u.id)
    (hrc : d.recipient_confirmed ≠ some true) :
    confirmCheck s (confirmWith k u c) =
      .ok { id := k, side := Side.recipient
            bothConfirmed := d.donor_confirmed.getD false
            message :=
              if d.donor_confirmed.getD false = true
              then "¡Donación completada! Ambas partes confirmaron"
              else "Confirmación de organización registrada" } := by
  simp [confirmCheck, confirmWith, truthy, hc, selectById_eq, hd, hst, hb, hcode, hu, hr,
    getD_false_of_ne_true _ hrc]


/-- C7: a donation reserved by `o`, who is not its donor, accepted by its
donor, with neither side confirmed and the stored code of a reservation: the
donor's confirm with that code succeeds with the donor message and leaves the
row reserved, and the following confirm by `o` succeeds with the completed
message and leaves the row completed with both flags true; in the opposite
order the first confirm answers with the organization message and the second
with the completed message, and the final status and flags are the same. -/
theorem confirmations_in_either_order (s : Store) (k : Nat) (d : Donation) (donor o : User)
    (rnd : ℚ) (t1 t2 : Nat)
    (hd : s k = some d) (hst : d.status = Status.reserved)
    (hb : d.business_confirmed = some true)
    (hres : d.reserved_by = some o.id) (hne : o.id ≠ d.donor_id)
    (hdon : d.donor_id = donor.id)
    (hdc : d.donor_confirmed ≠ some true) (hrc : d.recipient_confirmed ≠ some true)
    (hcode : d.verification_code = some (verificationCode rnd)) :
    (confirm s (confirmWith k donor (verificationCode rnd)) t1).2 =
      Response.message "Confirmación de donante registrada" ∧
    (confirm s (confirmWith k donor (verificationCode rnd)) t1).1 k =
      some { d with donor_confirmed := some true, donor_confirmed_at := some t1 } ∧
    (confirm (confirm s (confirmWith k donor (verificationCode rnd)) t1).1
        (confirmWith k o (verificationCode rnd)) t2).2 =
      Response.message "¡Donación completada! Ambas partes confirmaron" ∧
    (confirm (confirm s (confirmWith k donor (verificationCode rnd)) t1).1
        (confirmWith k o (verificationCode rnd)) t2).1 k =
      some { d with
        status := Status.completed
        donor_confirmed := some true
        donor_confirmed_at := some t1
        recipient_confirmed := some true
        recipient_confirmed_at := some t2
        completed_at := some t2 } ∧
    (confirm s (confirmWith k o (verificationCode rnd)) t1).2 =
      Response.message "Confirmación de organización registrada" ∧
    (confirm (confirm s (confirmWith k o (verificationCode rnd)) t1).1
        (confirmWith k donor (verificationCode rnd)) t2).2 =
      Response.message "¡Donación completada! Ambas partes confirmaron" ∧
    (confirm (confirm s (confirmWith k o (verificationCode rnd)) t1).1
        (confirmWith k donor (verificationCode rnd)) t2).1 k =
      some { d with
        status := Status.completed
        donor_confirmed := some true
        donor_confirmed_at := some t2
        recipient_confirmed := some true
        recipient_confirmed_at := some t1
        completed_at := some t2 } := by
  have hC := verificationCode_ne_empty rnd
  have hcode' : d.verification_code = some (jsTrim (verificationCode rnd)) := by
    rw [jsTrim_verificationCode]; exact hcode
  have hdo : d.donor_id ≠ o.id := fun h => hne h.symm
  have hrd : d.reserved_by ≠ some donor.id := by
    rw [hres]; intro h; exact hne ((Option.some.inj h).trans hdon.symm)
  have hdcf := getD_false_of_ne_true _ hdc
  have hrcf := getD_false_of_ne_true _ hrc
  -- donor first
  have c1 := confirmCheck_donor s k d donor _ hd hst hb hC hcode' hdon hdc
  have r1 := confirm_of_ok s _ t1 _ d c1 hd
  simp only [hrcf, hrd, decide_False, Bool.or_false, Bool.false_eq_true, if_false] at r1
  have hd1 : (Function.update s k (some (confirmSet
      { id := k, side := Side.donor, bothConfirmed := false,
        message := "Confirmación de donante registrada" } t1 d))) k =
      some { d with donor_confirmed := some true, donor_confirmed_at := some t1 } := by
    simp [confirmSet]
  have c2 := confirmCheck_recipient _ k _ o _ hd1 hst hb hC hcode' hdo hres hrc
  have r2 := confirm_of_ok _ _ t2 _ _ c2 hd1
  -- recipient first
  have c3 := confirmCheck_recipient s k d o _ hd hst hb hC hcode' hdo hres hrc
  have r3 := confirm_of_ok s _ t1 _ d c3 hd
  simp only [hdcf, Bool.false_eq_true, if_false] at r3
  have hd3 : (Function.update s k (some (confirmSet
      { id := k, side := Side.recipient, bothConfirmed := false,
        message := "Confirmación de organización registrada" } t1 d))) k =
      some { d with recipient_confirmed := some true, recipient_confirmed_at := some t1 } := by
    simp [confirmSet]
  have c4 := confirmCheck_donor _ k _ donor _ hd3 hst hb hC hcode' hdon hdc
  have r4 := confirm_of_ok _ _ t2 _ _ c4 hd3
  simp only [r1, r3]
  simp only [r2, r4]
  simp [confirmSet]


/-- Witness of `confirmations_in_either_order`: the accepted donation of the
scenario, confirmed by its donor at time 30 and by `org7` at time 40. -/
theorem confirmations_in_either_order_witness :
    (confirm (singleRow 1 scenarioAccepted)
        (confirmWith 1 donor3 (verificationCode (1 / 2))) 30).2 =
      Response.message "Confirmación de donante registrada" ∧
    (confirm (confirm (singleRow 1 scenarioAccepted)
        (confirmWith 1 donor3 (verificationCode (1 / 2))) 30).1
        (confirmWith 1 org7 (verificationCode (1 / 2))) 40).2 =
      Response.message "¡Donación completada! Ambas partes confirmaron" :=
  have h := confirmations_in_either_order (singleRow 1 scenarioAccepted) 1 scenarioAccepted
    donor3 org7 (1 / 2) 30 40 (by decide!) (by decide!) (by decide!) (by decide!)
    (by decide!) (by decide!) (by decide!) (by decide!) (by decide!)
  ⟨h.1, h.2.2.1⟩

/-! ## Effect of a reservation (C8) -/

/-- C8: after every successful reserve, the request named a donation `k` and
carried the three logistics fields; the answer carries the code of the draw;
the row `k` is the old row with `status = reserved`, `reserved_by` the actor,
`reserved_at` the clock, `pickup_time` as sent, the trimmed name and id, that
same code and `business_confirmed = false`, every other column (donor,
descriptive and location columns, both confirmation flags) as before; and
every other row is unchanged. -/
theorem reserve_effect (s : Store) (q : ReserveRequest) (rnd : ℚ) (now : Nat)
    (h : (reserve s q rnd now).2.isSuccess = true) :
    ∃ k d pt pn pid, q.id = some k ∧ s k = some d ∧ q.pickup_time = some pt ∧
      q.pickup_person_name = some pn ∧ q.pickup_person_id = some pid ∧
      (reserve s q rnd now).2 =
        Response.reserved "Donación reservada exitosamente. Esperando confirmación del comercio."
          (verificationCode rnd) pt pn ∧
      (reserve s q rnd now).1 k =
        some { d with
          status := Status.reserved
          reserved_by := some q.user.id
          reserved_at := some now
          pickup_time := some pt
          pickup_person_name := some (jsTrim pn)
          pickup_person_id := some (jsTrim pid)
          verification_code := some (verificationCode rnd)
          business_confirmed := some false } ∧
      ∀ j, j ≠ k → (reserve s q rnd now).1 j = s j := by
  obtain ⟨p, d, hc, hd, _, hid⟩ := reserve_success s q rnd now h
  obtain ⟨k, pt, pn, pid, d', hk, _, hpt, _, hpn, _, hpid, _, _, hd', _, hp⟩ :=
    (reserveCheck_ok s q p).1 hc
  have hpk : p.id = k := by rw [hp]
  rw [hpk, hd'] at hd
  cases hd
  refine ⟨k, d, pt, pn, pid, hk, hd', hpt, hpn, hpid, ?_⟩
  rw [reserve_of_ok s q rnd now p d hc (by rw [hpk]; exact hd')]
  subst hp
  refine ⟨rfl, by simp [reserveSet], ?_⟩
  intro j hj
  simp [Function.update, hj]

/-- Witness of `reserve_effect`: the reservation of the scenario. -/
theorem reserve_effect_witness :
    ∃ k d pt pn pid, (scenarioReserve org7).id = some k ∧ scenarioStore k = some d ∧
      (scenarioReserve org7).pickup_time = some pt ∧
      (scenarioReserve org7).pickup_person_name = some pn ∧
      (scenarioReserve org7).pickup_person_id = some pid ∧
      (reserve scenarioStore (scenarioReserve org7) (1 / 2) 10).2 =
        Response.reserved "Donación reservada exitosamente. Esperando confirmación del comercio."
          (verificationCode (1 / 2)) pt pn ∧
      (reserve scenarioStore (scenarioReserve org7) (1 / 2) 10).1 k =
        some { d with
          status := Status.reserved
          reserved_by := some (scenarioReserve org7).user.id
          reserved_at := some 10
          pickup_time := some pt
          pickup_person_name := some (jsTrim pn)
          pickup_person_id := some (jsTrim pid)
          verification_code := some (verificationCode (1 / 2))
          business_confirmed := some false } ∧
      ∀ j, j ≠ k → (reserve scenarioStore (scenarioReserve org7) (1 / 2) 10).1 j =
        scenarioStore j :=
  reserve_effect scenarioStore (scenarioReserve org7) (1 / 2) 10 (by decide!)

/-! ## Preconditions of a reservation (C9) -/

theorem isAvailable_iff (s : Store) (k : Nat) :
    isAvailable s k = true ↔ ∃ d, s k = some d ∧ d.status = Status.available := by
  unfold isAvailable
  cases h : s k <;> simp

theorem reserveCheck_reserveWith (s : Store) (k : Nat) (u : User) (pt pn pid : Option String) :
    reserveCheck s (reserveWith k u pt pn pid) =
      if u.userType ≠ "organization" then
        .error (.error 403 "Solo las organizaciones pueden reservar donaciones")
      else if logisticsPresent pt pn pid = false then
        .error (.error 400 "Debe proporcionar hora de recogida, nombre de la persona y cédula")
      else if idLengthInRange pid = false then
        .error (.error 400 "La cédula debe tener entre 6 y 20 caracteres")
      else if isAvailable s k = false then
        .error (.error 400 "Donación no disponible para reservar")
      else
        .ok { id := k, user := u, pickup_time := pt.getD "", pickup_person_name := pn.getD "",
              pickup_person_id := pid.getD "" } := by
  unfold reserveCheck reserveWith
  by_cases hu : u.userType = "organization"
  · by_cases hp : logisticsPresent pt pn pid = true
    · have hp' := hp
      simp only [logisticsPresent, Bool.and_eq_true] at hp'
      obtain ⟨⟨h1, h2⟩, h3⟩ := hp'
      by_cases hl : idLengthInRange pid = true
      · have hl' := hl
        simp only [idLengthInRange, Bool.and_eq_true, decide_eq_true_eq] at hl'
        by_cases ha : isAvailable s k = true
        · obtain ⟨d, hd, hst⟩ := (isAvailable_iff s k).1 ha
          have hsel : (selectAvailable s k).length ≠ 0 := by
            intro h0
            exact (selectAvailable_length s k).1 h0 ⟨d, hd, hst⟩
          simp [hu, hp, hl, ha, h1, h2, h3, hsel]
          omega
        · have hsel : (selectAvailable s k).length = 0 := by
            apply (selectAvailable_length s k).2
            intro hex
            exact ha ((isAvailable_iff s k).2 hex)
          simp [hu, hp, hl, ha, h1, h2, h3, hsel]
          omega
      · have hl' := hl
        simp only [idLengthInRange, Bool.and_eq_true, decide_eq_true_eq, not_and, not_le] at hl'
        simp [hu, hp, hl, h1, h2, h3]
        omega
    · have hp' := hp
      simp only [logisticsPresent, Bool.and_eq_true, not_and] at hp'
      simp [hu, hp]
      intro h1 h2 h3
      exact absurd h3 (hp' ⟨h1, h2⟩)
  · simp [hu]

/-- C9 as stated fails: a reserve by the donor `donor3`, who is not an
organization, on a route id that does not parse as a number is refused with
the 400 `ID de donación inválido` of line 836, not with the 403 of the role
check. -/
theorem unparseable_id_refused_before_role :
    donor3.userType ≠ "organization" ∧
    (reserve scenarioStore
        { id := none, user := donor3, pickup_time := some "2024-01-01T10:00",
          pickup_person_name := some "Ana Ruiz", pickup_person_id := some "1029384756" }
        (1 / 2) 10).2 = Response.error 400 "ID de donación inválido" ∧
    (reserve scenarioStore
        { id := none, user := donor3, pickup_time := some "2024-01-01T10:00",
          pickup_person_name := some "Ana Ruiz", pickup_person_id := some "1029384756" }
        (1 / 2) 10).2 ≠
      Response.error 403 "Solo las organizaciones pueden reservar donaciones" := by
  decide!

/-- C9 (amended): a reserve call whose route id does not parse as a number is
refused with the 400 `ID de donación inválido`, whatever the role, and the
table is unchanged. A call that names a donation `k` succeeds exactly when
the actor is an organization, the three logistics fields are present, the
`pickup_person_id` has between 6 and 20 characters and the donation `k` exists
with `status = available`. In every other case the table is unchanged and the
answer is: 403 when the role is not organization; else the missing-field 400
when a logistics field is missing; else the length 400 when the id length is
out of range; else the 400 `Donación no disponible para reservar`. -/
theorem reserve_succeeds_iff (s : Store) (k : Nat) (u : User) (pt pn pid : Option String)
    (rnd : ℚ) (now : Nat) :
    reserve s
        { id := none, user := u, pickup_time := pt, pickup_person_name := pn,
          pickup_person_id := pid } rnd now =
      (s, Response.error 400 "ID de donación inválido") ∧
    ((reserve s (reserveWith k u pt pn pid) rnd now).2.isSuccess = true ↔
      u.userType = "organization" ∧ logisticsPresent pt pn pid = true ∧
        idLengthInRange pid = true ∧ isAvailable s k = true) ∧
    (u.userType ≠ "organization" →
      reserve s (reserveWith k u pt pn pid) rnd now =
        (s, Response.error 403 "Solo las organizaciones pueden reservar donaciones")) ∧
    (u.userType = "organization" → logisticsPresent pt pn pid = false →
      reserve s (reserveWith k u pt pn pid) rnd now =
        (s, Response.error 400
          "Debe proporcionar hora de recogida, nombre de la persona y cédula")) ∧
    (u.userType = "organization" → logisticsPresent pt pn pid = true →
      idLengthInRange pid = false →
      reserve s (reserveWith k u pt pn pid) rnd now =
        (s, Response.error 400 "La cédula debe tener entre 6 y 20 caracteres")) ∧
    (u.userType = "organization" → logisticsPresent pt pn pid = true →
      idLengthInRange pid = true → isAvailable s k = false →
      reserve s (reserveWith k u pt pn pid) rnd now =
        (s, Response.error 400 "Donación no disponible para reservar")) := by
  have hc := reserveCheck_reserveWith s k u pt pn pid
  refine ⟨rfl, ?_, ?_, ?_, ?_, ?_⟩
  · by_cases hu : u.userType = "organization"
    · by_cases hp : logisticsPresent pt pn pid = true
      · by_cases hl : idLengthInRange pid = true
        · by_cases ha : isAvailable s k = true
          · simp only [hu, hp, hl, ha] at hc
            obtain ⟨d, hd, _⟩ := (isAvailable_iff s k).1 ha
            simp at hc
            rw [reserve_of_ok s _ rnd now _ d hc hd]
            simp [Response.isSuccess, hu, hp, hl, ha]
          · simp [hu, hp, hl, ha] at hc
            rw [reserve_of_error s _ rnd now _ hc]
            simp [Response.isSuccess, ha]
        · simp [hu, hp, hl] at hc
          rw [reserve_of_error s _ rnd now _ hc]
          simp [Response.isSuccess, hl]
      · simp [hu, hp] at hc
        rw [reserve_of_error s _ rnd now _ hc]
        simp [Response.isSuccess, hp]
    · simp [hu] at hc
      rw [reserve_of_error s _ rnd now _ hc]
      simp [Response.isSuccess, hu]
  · intro hu
    simp [hu] at hc
    exact reserve_of_error s _ rnd now _ hc
  · intro hu hp
    simp [hu, hp] at hc
    exact reserve_of_error s _ rnd now _ hc
  · intro hu hp hl
    simp [hu, hp, hl] at hc
    exact reserve_of_error s _ rnd now _ hc
  · intro hu hp hl ha
    simp [hu, hp, hl, ha] at hc
    exact reserve_of_error s _ rnd now _ hc

/-! ## Refusals of business-confirm (C10) -/

/-- C10: for every existing donation `k`, every actor and either decision,
business-confirm answers 403 when the actor is not the donor, whatever the
state of the donation; for the donor it answers the 400
`La donación debe estar reservada` when the status is not reserved and the 400
`Ya confirmaste esta reserva` when the status is reserved and
`business_confirmed` is already true; in each case the table is unchanged. -/
theorem businessConfirm_refusals (s : Store) (k : Nat) (d : Donation) (u : User)
    (accept : Bool) (now : Nat) (hd : s k = some d) :
    (u.id ≠ d.donor_id →
      businessConfirm s (businessWith k u accept) now =
        (s, Response.error 403 "Solo el donante puede confirmar la hora de recogida")) ∧
    (u.id = d.donor_id → d.status ≠ Status.reserved →
      businessConfirm s (businessWith k u accept) now =
        (s, Response.error 400 "La donación debe estar reservada")) ∧
    (u.id = d.donor_id → d.status = Status.reserved → d.business_confirmed = some true →
      businessConfirm s (businessWith k u accept) now =
        (s, Response.error 400 "Ya confirmaste esta reserva")) := by
  refine ⟨?_, ?_, ?_⟩
  · intro hu
    have hu' : d.donor_id ≠ u.id := fun h => hu h.symm
    apply businessConfirm_of_error
    simp [businessConfirmCheck, businessWith, selectById_eq, hd, hu']
  · intro hu hst
    apply businessConfirm_of_error
    simp [businessConfirmCheck, businessWith, selectById_eq, hd, hu, hst]
  · intro hu hst hb
    apply businessConfirm_of_error
    simp [businessConfirmCheck, businessWith, selectById_eq, hd, hu, hst, hb]

/-- Witness of `businessConfirm_refusals`: the accepted donation of the
scenario; `org7` is not its donor, and its donor has already accepted. -/
theorem businessConfirm_refusals_witness :
    businessConfirm (singleRow 1 scenarioAccepted) (businessWith 1 org7 false) 30 =
      (singleRow 1 scenarioAccepted,
        Response.error 403 "Solo el donante puede confirmar la hora de recogida") ∧
    businessConfirm (singleRow 1 scenarioAccepted) (businessWith 1 donor3 false) 30 =
      (singleRow 1 scenarioAccepted, Response.error 400 "Ya confirmaste esta reserva") :=
  ⟨(businessConfirm_refusals (singleRow 1 scenarioAccepted) 1 scenarioAccepted org7 false 30
      (by decide!)).1 (by decide!),
   (businessConfirm_refusals (singleRow 1 scenarioAccepted) 1 scenarioAccepted donor3 false 30
      (by decide!)).2.2 (by decide!) (by decide!) (by decide!)⟩

/-! ## Acceptance by the donor (C11) -/

/-- C11: for every donation with `status = reserved` and `business_confirmed`
false, business-confirm with `accept = true` by the donor succeeds and leaves
the row as it was except for `business_confirmed = true` and
`business_confirmed_at`; other rows are unchanged. A second accept, or a
reject, by the donor afterwards is refused with the 400
`Ya confirmaste esta reserva` and leaves the table unchanged. -/
theorem accept_frame (s : Store) (k : Nat) (d : Donation) (u : User) (t1 t2 : Nat)
    (again : Bool)
    (hd : s k = some d) (hu : d.donor_id = u.id) (hst : d.status = Status.reserved)
    (hb : d.business_confirmed = some false) :
    (businessConfirm s (businessWith k u true) t1).2 =
      Response.message
        "Hora de recogida aceptada. La organización puede proceder con la recogida." ∧
    (businessConfirm s (businessWith k u true) t1).1 k =
      some { d with business_confirmed := some true, business_confirmed_at := some t1 } ∧
    (∀ j, j ≠ k → (businessConfirm s (businessWith k u true) t1).1 j = s j) ∧
    businessConfirm (businessConfirm s (businessWith k u true) t1).1 (businessWith k u again) t2 =
      ((businessConfirm s (businessWith k u true) t1).1,
        Response.error 400 "Ya confirmaste esta reserva") := by
  have hc : businessConfirmCheck s (businessWith k u true) = .ok { id := k, accept := true } := by
    simp [businessConfirmCheck, businessWith, selectById_eq, hd, hu, hst, hb]
  have h1 := businessConfirm_of_ok s _ t1 _ d hc hd
  simp only [if_true] at h1
  rw [h1]
  refine ⟨rfl, by simp [acceptSet], ?_, ?_⟩
  · intro j hj
    simp [Function.update, hj]
  · apply businessConfirm_of_error
    simp [businessConfirmCheck, businessWith, selectById_eq, acceptSet, hu, hst]

/-- Witness of `accept_frame`: the reserved donation of the scenario, accepted
by its donor at time 20; a rejection at time 30 is refused. -/
theorem accept_frame_witness :
    (businessConfirm (singleRow 1 scenarioReserved) (businessWith 1 donor3 true) 20).1 1 =
      some { scenarioReserved with
        business_confirmed := some true, business_confirmed_at := some 20 } ∧
    businessConfirm
        (businessConfirm (singleRow 1 scenarioReserved) (businessWith 1 donor3 true) 20).1
        (businessWith 1 donor3 false) 30 =
      ((businessConfirm (singleRow 1 scenarioReserved) (businessWith 1 donor3 true) 20).1,
        Response.error 400 "Ya confirmaste esta reserva") :=
  have h := accept_frame (singleRow 1 scenarioReserved) 1 scenarioReserved donor3 20 30 false
    (by decide!) (by decide!) (by decide!) (by decide!)
  ⟨h.2.1, h.2.2.2⟩

/-! ## Which side a confirmation counts for (C12) -/

theorem jsTrim_ne_empty (c : String) (h : jsTrim c ≠ "") : c ≠ "" := by
  intro hc
  subst hc
  exact h rfl

/-- C12 as stated fails: in the accepted donation reserved by its own donor
`org7`, the actor is `reserved_by` and the recipient has not confirmed, yet a
confirm by `org7` with the right code sets `donor_confirmed` and leaves
`recipient_confirmed` null. -/
theorem confirm_by_self_reserver_sets_donor_flag :
    selfAccepted.reserved_by = some org7.id ∧
    selfAccepted.recipient_confirmed = none ∧
    selfAccepted.verification_code = some "550000" ∧
    (confirm (singleRow 1 selfAccepted) (confirmWith 1 org7 "550000") 30).2.isSuccess = true ∧
    ((confirm (singleRow 1 selfAccepted) (confirmWith 1 org7 "550000") 30).1 1).map
      (fun d => (d.donor_confirmed, d.recipient_confirmed)) = some (some true, none) := by
  decide!

/-- C12 (amended): for every donation with `status = reserved`,
`business_confirmed = true` and a submitted code that matches the stored code
of the reservation: the donor, if not yet confirmed, gets `donor_confirmed`
set with `recipient_confirmed` unchanged; an actor who is `reserved_by` and is
not the donor, if the recipient has not confirmed, gets `recipient_confirmed`
set with `donor_confirmed` unchanged; an actor who is neither is refused with
403; a side that has already confirmed is refused with the 400
`Ya confirmaste esta donación`; both refusals leave the table unchanged. -/
theorem confirm_role_resolution (s : Store) (k : Nat) (d : Donation) (u : User) (c : String)
    (rnd : ℚ) (now : Nat)
    (hd : s k = some d) (hst : d.status = Status.reserved)
    (hb : d.business_confirmed = some true)
    (hcode : d.verification_code = some (verificationCode rnd))
    (hc : jsTrim c = verificationCode rnd) :
    (d.donor_id = u.id → d.donor_confirmed ≠ some true →
      (confirm s (confirmWith k u c) now).2.isSuccess = true ∧
      ∃ d', (confirm s (confirmWith k u c) now).1 k = some d' ∧
        d'.donor_confirmed = some true ∧ d'.recipient_confirmed = d.recipient_confirmed) ∧
    (d.donor_id ≠ u.id → d.reserved_by = some u.id → d.recipient_confirmed ≠ some true →
      (confirm s (confirmWith k u c) now).2.isSuccess = true ∧
      ∃ d', (confirm s (confirmWith k u c) now).1 k = some d' ∧
        d'.recipient_confirmed = some true ∧ d'.donor_confirmed = d.donor_confirmed) ∧
    (d.donor_id ≠ u.id → d.reserved_by ≠ some u.id →
      confirm s (confirmWith k u c) now =
        (s, Response.error 403 "No tienes permisos para confirmar esta donación")) ∧
    (d.donor_id = u.id → d.donor_confirmed = some true →
      confirm s (confirmWith k u c) now =
        (s, Response.error 400 "Ya confirmaste esta donación")) ∧
    (d.donor_id ≠ u.id → d.reserved_by = some u.id → d.recipient_confirmed = some true →
      confirm s (confirmWith k u c) now =
        (s, Response.error 400 "Ya confirmaste esta donación")) := by
  have hne : c ≠ "" := jsTrim_ne_empty c (by rw [hc]; exact verificationCode_ne_empty rnd)
  have hcode' : d.verification_code = some (jsTrim c) := by rw [hc]; exact hcode
  refine ⟨?_, ?_, ?_, ?_, ?_⟩
  · intro hu hdc
    have h1 := confirmCheck_donor s k d u c hd hst hb hne hcode' hu hdc
    rw [confirm_of_ok s _ now _ d h1 hd]
    refine ⟨rfl, ?_⟩
    cases hboth : (d.recipient_confirmed.getD false || decide (d.reserved_by = some u.id)) <;>
      simp [confirmSet, hboth]
  · intro hu hr hrc
    have h1 := confirmCheck_recipient s k d u c hd hst hb hne hcode' hu hr hrc
    rw [confirm_of_ok s _ now _ d h1 hd]
    refine ⟨rfl, ?_⟩
    cases hboth : d.donor_confirmed.getD false <;> simp [confirmSet, hboth]
  · intro hu hr
    apply confirm_of_error
    simp [confirmCheck, confirmWith, truthy, hne, selectById_eq, hd, hst, hb, hcode', hu, hr]
  · intro hu hdc
    apply confirm_of_error
    simp [confirmCheck, confirmWith, truthy, hne, selectById_eq, hd, hst, hb, hcode', hu, hdc]
  · intro hu hr hrc
    apply confirm_of_error
    simp [confirmCheck, confirmWith, truthy, hne, selectById_eq, hd, hst, hb, hcode', hu, hr,
      hrc]

/-- Witness of `confirm_role_resolution`: the accepted donation of the
scenario; its donor confirms with the code 550000. -/
theorem confirm_role_resolution_witness :
    (confirm (singleRow 1 scenarioAccepted) (confirmWith 1 donor3 "550000") 30).2.isSuccess
      = true ∧
    ∃ d', (confirm (singleRow 1 scenarioAccepted) (confirmWith 1 donor3 "550000") 30).1 1 =
        some d' ∧
      d'.donor_confirmed = some true ∧
      d'.recipient_confirmed = scenarioAccepted.recipient_confirmed :=
  (confirm_role_resolution (singleRow 1 scenarioAccepted) 1 scenarioAccepted donor3 "550000"
    (1 / 2) 30 (by decide!) (by decide!) (by decide!) (by decide!) (by decide!)).1
    (by decide!) (by decide!)

/-! ## Completed is terminal (C13) -/

/-- A successful call found the row it names with `status` available or
reserved. -/
theorem run_success_row (s : Store) (c : Call) (h : (c.run s).2.isSuccess = true) :
    ∃ k d, c.id = some k ∧ s k = some d ∧
      (d.status = Status.available ∨ d.status = Status.reserved) := by
  cases c with
  | reserve q rnd now =>
    obtain ⟨p, d, _, hd, hst, hid⟩ := reserve_success s q rnd now h
    exact ⟨p.id, d, hid, hd, Or.inl hst⟩
  | businessConfirm q now =>
    obtain ⟨p, d, _, hd, hid, _, _, hst, _⟩ := businessConfirm_success s q now h
    exact ⟨p.id, d, hid, hd, Or.inr hst⟩
  | confirm q now =>
    obtain ⟨p, hp⟩ := confirm_success s q now h
    obtain ⟨k, _, d, hk, _, _, hd, _, hst, _⟩ := confirmCheck_ok s q p hp
    exact ⟨k, d, hk, hd, Or.inr hst⟩

/-- A call that does not succeed leaves the table as it was. -/
theorem run_failure_unchanged (s : Store) (c : Call) (h : (c.run s).2.isSuccess = false) :
    (c.run s).1 = s := by
  cases c with
  | reserve q rnd now =>
    simp only [Call.run] at h ⊢
    cases hc : reserveCheck s q with
    | error r => rw [reserve_of_error s q rnd now r hc]
    | ok p =>
      obtain ⟨k, _, _, _, d, _, _, _, _, _, _, _, _, _, hd, _, hp⟩ :=
        (reserveCheck_ok s q p).1 hc
      have hid : p.id = k := by rw [hp]
      rw [reserve_of_ok s q rnd now p d hc (hid ▸ hd)] at h
      simp [Response.isSuccess] at h
  | businessConfirm q now =>
    simp only [Call.run] at h ⊢
    cases hc : businessConfirmCheck s q with
    | error r => rw [businessConfirm_of_error s q now r hc]
    | ok p =>
      obtain ⟨k, a, d, _, _, hd, _, _, _, hp⟩ := (businessConfirmCheck_ok s q p).1 hc
      have hid : p.id = k := by rw [hp]
      rw [businessConfirm_of_ok s q now p d hc (hid ▸ hd)] at h
      cases hacc : p.accept <;> simp [hacc, Response.isSuccess] at h
  | confirm q now =>
    simp only [Call.run] at h ⊢
    cases hc : confirmCheck s q with
    | error r => rw [confirm_of_error s q now r hc]
    | ok p =>
      obtain ⟨k, _, d, _, _, _, hd, hid, _⟩ := confirmCheck_ok s q p hc
      rw [confirm_of_ok s q now p d hc (hid ▸ hd)] at h
      simp [Response.isSuccess] at h

/-- C13: for every donation `k` with `status = completed` and every reserve,
business-confirm or confirm call, by any actor with any inputs: the row `k` is
unchanged, and a call that names the donation `k` does not succeed and leaves
the whole table unchanged. -/
theorem completed_is_terminal (s : Store) (k : Nat) (d : Donation) (c : Call)
    (hd : s k = some d) (hst : d.status = Status.completed) :
    (c.run s).1 k = some d ∧
    (c.id = some k → (c.run s).2.isSuccess = false ∧ (c.run s).1 = s) := by
  constructor
  · rcases run_row s c k with heq | ⟨d0, hd0, hcase⟩
    · rw [heq, hd]
    · rw [hd] at hd0
      cases hd0
      rcases hcase with ⟨h, _⟩ | ⟨h, _⟩ | ⟨h, _⟩ | ⟨h, _⟩ <;> simp [hst] at h
  · intro hid
    have hfail : (c.run s).2.isSuccess = false := by
      cases hs : (c.run s).2.isSuccess with
      | false => rfl
      | true =>
        obtain ⟨k', d', hk', hd', hst'⟩ := run_success_row s c hs
        rw [hid] at hk'
        cases hk'
        rw [hd] at hd'
        cases hd'
        rcases hst' with h | h <;> simp [hst] at h
    exact ⟨hfail, run_failure_unchanged s c hfail⟩

/-- Witness of `completed_is_terminal`: the scenario run to completion; a
further confirm by the donor with the right code. -/
theorem completed_is_terminal_witness :
    (confirm
        (singleRow 1
          { scenarioAccepted with
            status := Status.completed, donor_confirmed := some true,
            recipient_confirmed := some true })
        (confirmWith 1 donor3 "550000") 50).2.isSuccess = false :=
  ((completed_is_terminal
      (singleRow 1
        { scenarioAccepted with
          status := Status.completed, donor_confirmed := some true,
          recipient_confirmed := some true })
      1
      { scenarioAccepted with
        status := Status.completed, donor_confirmed := some true,
        recipient_confirmed := some true }
      (Call.confirm (confirmWith 1 donor3 "550000") 50) (by decide!) (by decide!)).2
    (by decide!)).1

/-! ## Length of the stored `pickup_person_id` (C14) -/

/-- C14 (defect): a reserve whose `pickup_person_id` is `42` with three
spaces on each side passes the length check (8 characters), succeeds, and
stores the trimmed id `42`, of 2 characters. -/
theorem padded_person_id_stored_short :
    (reserve scenarioStore
        (reserveWith 1 org7 (some "2024-01-01T10:00") (some "Ana Ruiz") (some "   42   "))
        (1 / 2) 10).2.isSuccess = true ∧
    ((reserve scenarioStore
        (reserveWith 1 org7 (some "2024-01-01T10:00") (some "Ana Ruiz") (some "   42   "))
        (1 / 2) 10).1 1).map (fun d => (d.status, d.pickup_person_id)) =
      some (Status.reserved, some "42") ∧
    utf16Length "   42   " = 8 ∧ utf16Length "42" = 2 := by
  decide!

/-! ## Shape of the verification code (C15) -/

theorem toDigitsCore_step (fuel n : Nat) (acc : List Char) :
    Nat.toDigitsCore 10 (fuel + 1) n acc =
      if n / 10 = 0 then Nat.digitChar (n % 10) :: acc
      else Nat.toDigitsCore 10 fuel (n / 10) (Nat.digitChar (n % 10) :: acc) := by
  simp [Nat.toDigitsCore]

theorem toDigits_six (n : Nat) (h1 : 100000 ≤ n) (h2 : n ≤ 999999) :
    Nat.toDigits 10 n =
      [Nat.digitChar (n / 100000), Nat.digitChar (n / 10000 % 10),
       Nat.digitChar (n / 1000 % 10), Nat.digitChar (n / 100 % 10),
       Nat.digitChar (n / 10 % 10), Nat.digitChar (n % 10)] := by
  obtain ⟨j, rfl⟩ : ∃ j, n = j + 6 := ⟨n - 6, by omega⟩
  unfold Nat.toDigits
  have e1 : (j + 6) / 10 ≠ 0 := by omega
  have e2 : (j + 6) / 10 / 10 ≠ 0 := by omega
  have e3 : (j + 6) / 10 / 10 / 10 ≠ 0 := by omega
  have e4 : (j + 6) / 10 / 10 / 10 / 10 ≠ 0 := by omega
  have e5 : (j + 6) / 10 / 10 / 10 / 10 / 10 ≠ 0 := by omega
  have e6 : (j + 6) / 10 / 10 / 10 / 10 / 10 / 10 = 0 := by omega
  rw [show j + 6 + 1 = (j + 1) + 1 + 1 + 1 + 1 + 1 + 1 by omega]
  rw [toDigitsCore_step, if_neg e1, toDigitsCore_step, if_neg e2, toDigitsCore_step, if_neg e3,
    toDigitsCore_step, if_neg e4, toDigitsCore_step, if_neg e5, toDigitsCore_step, if_pos e6]
  have d5 : (j + 6) / 10 / 10 / 10 / 10 / 10 % 10 = (j + 6) / 100000 := by omega
  have d4 : (j + 6) / 10 / 10 / 10 / 10 % 10 = (j + 6) / 10000 % 10 := by omega
  have d3 : (j + 6) / 10 / 10 / 10 % 10 = (j + 6) / 1000 % 10 := by omega
  have d2 : (j + 6) / 10 / 10 % 10 = (j + 6) / 100 % 10 := by omega
  rw [d5, d4, d3, d2]


theorem digitChar_isDigit (m : Nat) (h : m < 10) : (Nat.digitChar m).isDigit = true := by
  interval_cases m <;> rfl

theorem digitChar_ne_zero (m : Nat) (h0 : 0 < m) (h : m < 10) : Nat.digitChar m ≠ '0' := by
  interval_cases m <;> decide

/-! ## Lemmas on double rounding -/

theorem searchDown_bounds (p : ℤ → Bool) (fuel : Nat) :
    ∀ e0 : ℤ, e0 - fuel ≤ searchDown p fuel e0 ∧ searchDown p fuel e0 ≤ e0 := by
  induction fuel with
  | zero => intro e0; simp [searchDown]
  | succ f ih =>
    intro e0
    simp only [searchDown]
    split
    · constructor <;> push_cast <;> omega
    · obtain ⟨h1, h2⟩ := ih (e0 - 1)
      constructor <;> push_cast <;> omega

theorem searchDown_found (p : ℤ → Bool) (fuel : Nat) :
    ∀ e0 : ℤ, searchDown p fuel e0 = e0 - fuel ∨ p (searchDown p fuel e0) = true := by
  induction fuel with
  | zero => intro e0; left; simp [searchDown]
  | succ f ih =>
    intro e0
    simp only [searchDown]
    split
    · right; assumption
    · rcases ih (e0 - 1) with h | h
      · left; rw [h]; push_cast; omega
      · right; exact h

theorem searchDown_skipped (p : ℤ → Bool) (fuel : Nat) :
    ∀ e0 e : ℤ, searchDown p fuel e0 < e → e ≤ e0 → p e = false := by
  induction fuel with
  | zero => intro e0 e h1 h2; simp [searchDown] at h1; omega
  | succ f ih =>
    intro e0 e h1 h2
    simp only [searchDown] at h1
    split at h1
    · omega
    · rename_i hp
      by_cases he : e = e0
      · rw [he]; simpa using hp
      · exact ih (e0 - 1) e h1 (by omega)

theorem pow2Le_iff (e : ℤ) (n d : Nat) (hd : 0 < d) :
    pow2Le e n d = true ↔ (2 : ℚ) ^ e ≤ (n : ℚ) / d := by
  have hdq : (0 : ℚ) < d := by exact_mod_cast hd
  unfold pow2Le
  by_cases he : 0 ≤ e
  · obtain ⟨k, rfl⟩ := Int.eq_ofNat_of_zero_le he
    simp only [he, if_true, Int.toNat_ofNat, decide_eq_true_eq, zpow_natCast]
    rw [le_div_iff₀ hdq]
    constructor
    · intro h; exact_mod_cast h
    · intro h; exact_mod_cast h
  · have hneg : 0 ≤ -e := by omega
    obtain ⟨k, hk⟩ := Int.eq_ofNat_of_zero_le hneg
    have hek : e = -(k : ℤ) := by omega
    simp only [he, if_false, hk, Int.toNat_ofNat, decide_eq_true_eq]
    rw [hek, zpow_neg, zpow_natCast, le_div_iff₀ hdq]
    have h2 : (0 : ℚ) < 2 ^ k := by positivity
    rw [inv_mul_le_iff₀ h2]
    constructor
    · intro h
      have : (d : ℚ) ≤ (n : ℚ) * 2 ^ k := by exact_mod_cast h
      linarith
    · intro h
      have : (d : ℚ) ≤ (n : ℚ) * 2 ^ k := by linarith
      exact_mod_cast this

theorem abs_eq_natAbs_div (x : ℚ) : |x| = (x.num.natAbs : ℚ) / x.den := by
  have hd : (0 : ℚ) < x.den := by exact_mod_cast x.den_pos
  rw [eq_div_iff hd.ne']
  have hx : x * x.den = x.num := Rat.mul_den_eq_num x
  have : |x| * x.den = |x * x.den| := by rw [abs_mul, abs_of_pos hd]
  rw [this, hx]
  rw [Nat.cast_natAbs]
  push_cast
  rfl

theorem binade_test (x : ℚ) (e : ℤ) :
    pow2Le e x.num.natAbs x.den = true ↔ (2 : ℚ) ^ e ≤ |x| := by
  rw [pow2Le_iff e _ _ x.den_pos, abs_eq_natAbs_div]

theorem binade_bounds (x : ℚ) : -1022 ≤ binade x ∧ binade x ≤ 1023 := by
  have := searchDown_bounds (fun e => pow2Le e x.num.natAbs x.den) 2045 1023
  unfold binade
  constructor <;> push_cast at this <;> omega

theorem binade_pow_le (x : ℚ) (h : binade x ≠ -1022) : (2 : ℚ) ^ binade x ≤ |x| := by
  rcases searchDown_found (fun e => pow2Le e x.num.natAbs x.den) 2045 1023 with h1 | h1
  · exfalso
    apply h
    unfold binade
    rw [h1]
    norm_num
  · exact (binade_test x _).1 h1

theorem lt_pow_of_binade_lt (x : ℚ) (e : ℤ) (h1 : binade x < e) (h2 : e ≤ 1023) :
    |x| < (2 : ℚ) ^ e := by
  have := searchDown_skipped (fun e => pow2Le e x.num.natAbs x.den) 2045 1023 e h1 h2
  by_contra hc
  have hle : (2 : ℚ) ^ e ≤ |x| := not_lt.1 hc
  rw [← binade_test] at hle
  simp only at this
  rw [hle] at this
  cases this

theorem binade_le_of_lt (x : ℚ) (k : ℤ) (h : |x| < (2 : ℚ) ^ (k + 1)) (hk : -1022 ≤ k) :
    binade x ≤ k := by
  by_contra hc
  have hgt : k < binade x := not_le.1 hc
  have hne : binade x ≠ -1022 := by omega
  have h1 := binade_pow_le x hne
  have h2 : (2 : ℚ) ^ binade x < 2 ^ (k + 1) := lt_of_le_of_lt h1 h
  have h3 := (zpow_lt_zpow_iff_right₀ (by norm_num : (1 : ℚ) < 2)).1 h2
  omega

theorem binade_eq (x : ℚ) (k : ℤ) (h1 : (2 : ℚ) ^ k ≤ |x|) (h2 : |x| < (2 : ℚ) ^ (k + 1))
    (hk : -1022 ≤ k) (hk' : k ≤ 1023) : binade x = k := by
  apply le_antisymm (binade_le_of_lt x k h2 hk)
  by_contra hc
  have hlt : binade x < k := not_le.1 hc
  have := lt_pow_of_binade_lt x k hlt hk'
  exact absurd h1 (not_le.2 this)

theorem roundHalfEven_ge_floor (q : ℚ) : ⌊q⌋ ≤ roundHalfEven q := by
  unfold roundHalfEven
  split_ifs <;> omega

theorem roundHalfEven_le_floor_succ (q : ℚ) : roundHalfEven q ≤ ⌊q⌋ + 1 := by
  unfold roundHalfEven
  split_ifs <;> omega

theorem roundHalfEven_intCast (n : ℤ) : roundHalfEven (n : ℚ) = n := by
  unfold roundHalfEven
  simp

/-- Rounding does not go below an integer that the number does not go below. -/
theorem le_roundHalfEven (q : ℚ) (n : ℤ) (h : (n : ℚ) ≤ q) : n ≤ roundHalfEven q :=
  le_trans (Int.le_floor.2 h) (roundHalfEven_ge_floor q)

/-- Rounding does not go above an integer that the number does not go above. -/
theorem roundHalfEven_le (q : ℚ) (n : ℤ) (h : q ≤ (n : ℚ)) : roundHalfEven q ≤ n := by
  have hf : ⌊q⌋ ≤ n := Int.floor_le_iff.2 (by linarith)
  rcases lt_or_eq_of_le hf with hlt | heq
  · have := roundHalfEven_le_floor_succ q
    omega
  · have hq : q = n := le_antisymm h (by rw [← heq]; exact Int.floor_le q)
    rw [hq, roundHalfEven_intCast]

/-- A number less than half above an integer rounds to that integer at most. -/
theorem roundHalfEven_le_of_lt_half (q : ℚ) (n : ℤ) (h : q < (n : ℚ) + 1 / 2) :
    roundHalfEven q ≤ n := by
  have hf : ⌊q⌋ ≤ n := Int.floor_le_iff.2 (by linarith)
  rcases lt_or_eq_of_le hf with hlt | heq
  · have := roundHalfEven_le_floor_succ q
    omega
  · unfold roundHalfEven
    have : q - ⌊q⌋ < 1 / 2 := by rw [heq]; linarith
    rw [if_pos this]
    exact hf

theorem ulp_pos (x : ℚ) : (0 : ℚ) < 2 ^ (binade x - 52) := by positivity

theorem toDouble_nonneg (x : ℚ) (h : 0 ≤ x) : 0 ≤ toDouble x := by
  unfold toDouble
  have h1 : (0 : ℚ) ≤ x / 2 ^ (binade x - 52) := div_nonneg h (ulp_pos x).le
  have h2 : (0 : ℤ) ≤ roundHalfEven (x / 2 ^ (binade x - 52)) :=
    le_roundHalfEven _ 0 (by simpa using h1)
  have h3 : (0 : ℚ) ≤ (roundHalfEven (x / 2 ^ (binade x - 52)) : ℚ) := by exact_mod_cast h2
  exact mul_nonneg h3 (ulp_pos x).le

/-- A bound that is a multiple of the unit in the last place of `x` and is
not below `x` is not below the double nearest to `x`. -/
theorem toDouble_le (x b : ℚ) (m : ℤ) (hb : b = m * 2 ^ (binade x - 52)) (h : x ≤ b) :
    toDouble x ≤ b := by
  unfold toDouble
  have hu := ulp_pos x
  have h1 : x / 2 ^ (binade x - 52) ≤ (m : ℚ) := by
    rw [div_le_iff₀ hu, ← hb]; exact h
  have h2 := roundHalfEven_le _ m h1
  have h3 : (roundHalfEven (x / 2 ^ (binade x - 52)) : ℚ) ≤ (m : ℚ) := by exact_mod_cast h2
  rw [hb]
  exact mul_le_mul_of_nonneg_right h3 hu.le

/-- The same for a bound from below. -/
theorem le_toDouble (x b : ℚ) (m : ℤ) (hb : b = m * 2 ^ (binade x - 52)) (h : b ≤ x) :
    b ≤ toDouble x := by
  unfold toDouble
  have hu := ulp_pos x
  have h1 : (m : ℚ) ≤ x / 2 ^ (binade x - 52) := by
    rw [le_div_iff₀ hu, ← hb]; exact h
  have h2 := le_roundHalfEven _ m h1
  have h3 : (m : ℚ) ≤ (roundHalfEven (x / 2 ^ (binade x - 52)) : ℚ) := by exact_mod_cast h2
  rw [hb]
  exact mul_le_mul_of_nonneg_right h3 hu.le

/-- A dyadic number `c * 2 ^ a` is a multiple of `2 ^ b` when `b ≤ a`. -/
theorem dyadic_multiple (c a b : ℤ) (h : b ≤ a) :
    ∃ m : ℤ, (c : ℚ) * 2 ^ a = (m : ℚ) * 2 ^ b := by
  obtain ⟨k, hk⟩ := Int.eq_ofNat_of_zero_le (show 0 ≤ a - b by omega)
  refine ⟨c * 2 ^ k, ?_⟩
  have ha : a = (k : ℤ) + b := by omega
  rw [ha, zpow_add₀ (by norm_num : (2 : ℚ) ≠ 0), zpow_natCast]
  push_cast
  ring

/-- A double below 1 is at most `1 - 2 ^ (-53)`. -/
theorem double_lt_one (r : ℚ) (hr : toDouble r = r) (h0 : 0 ≤ r) (h1 : r < 1) :
    r ≤ 1 - 1 / 2 ^ 53 := by
  by_cases hhalf : r < 1 / 2
  · have : (1 : ℚ) / 2 ≤ 1 - 1 / 2 ^ 53 := by norm_num
    linarith
  · have habs : |r| = r := abs_of_nonneg h0
    have hb : binade r = -1 := by
      apply binade_eq r (-1)
      · rw [habs]; norm_num; linarith
      · rw [habs]; norm_num; exact h1
      · norm_num
      · norm_num
    have hd : r = roundHalfEven (r / 2 ^ (binade r - 52)) * 2 ^ (binade r - 52) := by
      conv_lhs => rw [← hr]
      rfl
    rw [hb] at hd
    have hu : (2 : ℚ) ^ ((-1 : ℤ) - 52) = 1 / 2 ^ 53 := by norm_num [zpow_neg]
    rw [hu] at hd
    set n := roundHalfEven (r / (1 / 2 ^ 53)) with hn
    have hlt : (n : ℚ) < 2 ^ 53 := by
      have : (n : ℚ) * (1 / 2 ^ 53) < 1 := by rw [← hd]; exact h1
      have h2 : (0 : ℚ) < 2 ^ 53 := by positivity
      rw [mul_one_div, div_lt_one h2] at this
      exact this
    have hlt' : n < 2 ^ 53 := by exact_mod_cast hlt
    have hle : n ≤ 2 ^ 53 - 1 := by omega
    have hle' : (n : ℚ) ≤ 2 ^ 53 - 1 := by exact_mod_cast hle
    rw [hd]
    have h2 : (0 : ℚ) < 1 / 2 ^ 53 := by positivity
    calc (n : ℚ) * (1 / 2 ^ 53) ≤ (2 ^ 53 - 1) * (1 / 2 ^ 53) :=
          mul_le_mul_of_nonneg_right hle' h2.le
      _ = 1 - 1 / 2 ^ 53 := by norm_num

/-- The rounded product `r * 900000` of a double draw in `[0, 1)` is at most
the double just below 900000. -/
theorem product_le (r : ℚ) (hr : toDouble r = r) (h0 : 0 ≤ r) (h1 : r < 1) :
    0 ≤ toDouble (r * 900000) ∧ toDouble (r * 900000) ≤ 900000 - 1 / 2 ^ 33 := by
  have hx0 : 0 ≤ r * 900000 := by positivity
  refine ⟨toDouble_nonneg _ hx0, ?_⟩
  have hrmax := double_lt_one r hr h0 h1
  have hxmax : r * 900000 ≤ (1 - 1 / 2 ^ 53) * 900000 :=
    mul_le_mul_of_nonneg_right hrmax (by norm_num)
  have habs : |r * 900000| = r * 900000 := abs_of_nonneg hx0
  have hble : binade (r * 900000) ≤ 19 := by
    apply binade_le_of_lt _ 19 _ (by norm_num)
    rw [habs]
    have : (1 - 1 / 2 ^ 53 : ℚ) * 900000 < 2 ^ ((19 : ℤ) + 1) := by norm_num
    exact lt_of_le_of_lt hxmax this
  rcases lt_or_eq_of_le hble with hlt | heq
  · -- a lower binade: the product is below 2 ^ 19
    have hx19 : r * 900000 ≤ 2 ^ (19 : ℤ) := by
      have h2 := lt_pow_of_binade_lt (r * 900000) (binade (r * 900000) + 1) (by omega)
        (by omega)
      rw [habs] at h2
      have h3 : (2 : ℚ) ^ (binade (r * 900000) + 1) ≤ 2 ^ (19 : ℤ) :=
        zpow_le_zpow_right₀ (by norm_num) (by omega)
      linarith
    obtain ⟨m, hm⟩ := dyadic_multiple 1 19 (binade (r * 900000) - 52) (by omega)
    have hb : (2 : ℚ) ^ (19 : ℤ) = m * 2 ^ (binade (r * 900000) - 52) := by
      rw [← hm]; norm_num
    have := toDouble_le (r * 900000) (2 ^ (19 : ℤ)) m hb hx19
    have h19 : (2 : ℚ) ^ (19 : ℤ) ≤ 900000 - 1 / 2 ^ 33 := by norm_num
    linarith
  · -- the binade of 900000
    unfold toDouble
    rw [heq]
    have hu : (2 : ℚ) ^ ((19 : ℤ) - 52) = 1 / 2 ^ 33 := by norm_num [zpow_neg]
    rw [hu]
    have hq : r * 900000 / (1 / 2 ^ 33) < ((900000 * 2 ^ 33 - 1 : ℤ) : ℚ) + 1 / 2 := by
      have : r * 900000 / (1 / 2 ^ 33) = r * 900000 * 2 ^ 33 := by field_simp
      rw [this]
      have h4 : r * 900000 * 2 ^ 33 ≤ (1 - 1 / 2 ^ 53) * 900000 * 2 ^ 33 :=
        mul_le_mul_of_nonneg_right hxmax (by positivity)
      have h5 : (1 - 1 / 2 ^ 53 : ℚ) * 900000 * 2 ^ 33 <
          ((900000 * 2 ^ 33 - 1 : ℤ) : ℚ) + 1 / 2 := by norm_num
      linarith
    have h6 := roundHalfEven_le_of_lt_half _ _ hq
    have h7 : (roundHalfEven (r * 900000 / (1 / 2 ^ 33)) : ℚ) ≤
        ((900000 * 2 ^ 33 - 1 : ℤ) : ℚ) := by exact_mod_cast h6
    have h8 : (0 : ℚ) < 1 / 2 ^ 33 := by positivity
    calc (roundHalfEven (r * 900000 / (1 / 2 ^ 33)) : ℚ) * (1 / 2 ^ 33)
        ≤ ((900000 * 2 ^ 33 - 1 : ℤ) : ℚ) * (1 / 2 ^ 33) :=
          mul_le_mul_of_nonneg_right h7 h8.le
      _ = 900000 - 1 / 2 ^ 33 := by norm_num

/-- The number that `Math.floor` receives lies between 100000 and the double
just below 1000000. -/
theorem sum_bounds (r : ℚ) (hr : toDouble r = r) (h0 : 0 ≤ r) (h1 : r < 1) :
    100000 ≤ toDouble (100000 + toDouble (r * 900000)) ∧
    toDouble (100000 + toDouble (r * 900000)) ≤ 1000000 - 1 / 2 ^ 33 := by
  obtain ⟨hp0, hp1⟩ := product_le r hr h0 h1
  set p := toDouble (r * 900000) with hp
  have hs0 : (100000 : ℚ) ≤ 100000 + p := by linarith
  have hs1 : 100000 + p ≤ 1000000 - 1 / 2 ^ 33 := by linarith
  have habs : |100000 + p| = 100000 + p := abs_of_nonneg (by linarith)
  have hble : binade (100000 + p) ≤ 19 := by
    apply binade_le_of_lt _ 19 _ (by norm_num)
    rw [habs]
    have : (1000000 - 1 / 2 ^ 33 : ℚ) < 2 ^ ((19 : ℤ) + 1) := by norm_num
    exact lt_of_le_of_lt hs1 this
  constructor
  · obtain ⟨m, hm⟩ := dyadic_multiple 3125 5 (binade (100000 + p) - 52) (by omega)
    have hb : (100000 : ℚ) = m * 2 ^ (binade (100000 + p) - 52) := by
      rw [← hm]; norm_num
    exact le_toDouble (100000 + p) 100000 m hb hs0
  · obtain ⟨m, hm⟩ := dyadic_multiple (1000000 * 2 ^ 33 - 1) (-33)
      (binade (100000 + p) - 52) (by omega)
    have hb : (1000000 - 1 / 2 ^ 33 : ℚ) = m * 2 ^ (binade (100000 + p) - 52) := by
      rw [← hm]; norm_num [zpow_neg]
    exact toDouble_le (100000 + p) _ m hb hs1

/-- The integer of the code lies between 100000 and 999999 for a double draw
in `[0, 1)`. -/
theorem code_floor_bounds (r : ℚ) (hr : toDouble r = r) (h0 : 0 ≤ r) (h1 : r < 1) :
    (100000 : ℤ) ≤ ⌊toDouble (100000 + toDouble (r * 900000))⌋ ∧
    ⌊toDouble (100000 + toDouble (r * 900000))⌋ ≤ 999999 := by
  obtain ⟨hlo, hhi⟩ := sum_bounds r hr h0 h1
  constructor
  · apply Int.le_floor.2
    push_cast
    exact hlo
  · have : ⌊toDouble (100000 + toDouble (r * 900000))⌋ < 1000000 := by
      apply Int.floor_lt.2
      push_cast
      have : (1000000 - 1 / 2 ^ 33 : ℚ) < 1000000 := by norm_num
      linarith
    omega

/-- At the double nearest to 1/900000 the rounded product is 1, so the code
is 100001 (the exact product would give 100000). -/
theorem verificationCode_near_one_over_900000 :
    verificationCode (toDouble (1 / 900000)) = "100001" := by
  decide!

/-- C15: for every draw `r` of `Math.random()`, a double with `0 ≤ r < 1`,
the integer `Math.floor(100000 + r * 900000)`, computed in doubles, lies
between 100000 and 999999, and its decimal rendering, the verification code,
has exactly six characters, all of them ASCII digits, the first of which is
not `0`. -/
theorem verificationCode_six_digits (r : ℚ) (hr : toDouble r = r) (h0 : 0 ≤ r) (h1 : r < 1) :
    (100000 : ℤ) ≤ ⌊toDouble (100000 + toDouble (r * 900000))⌋ ∧
    ⌊toDouble (100000 + toDouble (r * 900000))⌋ ≤ 999999 ∧
    (verificationCode r).length = 6 ∧
    (∀ c ∈ (verificationCode r).data, c.isDigit = true) ∧
    (verificationCode r).data.head? ≠ some '0' := by
  obtain ⟨hlo, hhi⟩ := code_floor_bounds r hr h0 h1
  obtain ⟨n, hn⟩ : ∃ n : Nat, ⌊toDouble (100000 + toDouble (r * 900000))⌋ = Int.ofNat n :=
    ⟨⌊toDouble (100000 + toDouble (r * 900000))⌋.toNat,
      (Int.toNat_of_nonneg (by omega)).symm⟩
  have hn1 : 100000 ≤ n := by
    rw [hn] at hlo; exact Int.ofNat_le.1 hlo
  have hn2 : n ≤ 999999 := by
    rw [hn] at hhi; exact Int.ofNat_le.1 hhi
  have hdata : (verificationCode r).data = Nat.toDigits 10 n := by
    unfold verificationCode
    rw [hn]
    rfl
  refine ⟨hlo, hhi, ?_, ?_, ?_⟩
  · show (verificationCode r).data.length = 6
    rw [hdata, toDigits_six n hn1 hn2]
    rfl
  · rw [hdata, toDigits_six n hn1 hn2]
    intro c hc
    simp only [List.mem_cons, List.mem_singleton, List.not_mem_nil, or_false] at hc
    rcases hc with h | h | h | h | h | h <;> rw [h] <;> apply digitChar_isDigit <;> omega
  · rw [hdata, toDigits_six n hn1 hn2]
    simp only [List.head?_cons, ne_eq, Option.some.injEq]
    exact digitChar_ne_zero _ (by omega) (by omega)

/-- Witness of `verificationCode_six_digits`: the draw 1/2, a double, whose
code is 550000. -/
theorem verificationCode_six_digits_witness :
    (100000 : ℤ) ≤ ⌊toDouble (100000 + toDouble ((1 / 2 : ℚ) * 900000))⌋ ∧
    ⌊toDouble (100000 + toDouble ((1 / 2 : ℚ) * 900000))⌋ ≤ 999999 ∧
    (verificationCode (1 / 2)).length = 6 ∧
    (∀ c ∈ (verificationCode (1 / 2)).data, c.isDigit = true) ∧
    (verificationCode (1 / 2)).data.head? ≠ some '0' :=
  verificationCode_six_digits (1 / 2) (by decide!) (by norm_num) (by norm_num)

/-! ## Batch creation (C16) -/

theorem validationError_eq_none (js : Builtins) (b : DonationFields) :
    validationError js b = none ↔ itemInvalid js b = false := by
  unfold validationError itemInvalid
  by_cases h1 : (!truthy b.title || !truthy b.description || !truthy b.category
      || !truthyInt b.quantity) = true
  · simp only [h1, if_true]
    simp only [Bool.or_eq_true] at h1
    simp [h1]
  · by_cases h2 : (!b.finalLatitude.truthy || !b.finalLongitude.truthy) = true
    · simp only [h1, h2, if_true, if_false]
      simp only [Bool.or_eq_true] at h2
      rcases h2 with h2 | h2 <;> simp [h2]
    · by_cases h3 : ((js.parseFloatOf b.finalLatitude).isNone
          || (js.parseFloatOf b.finalLongitude).isNone) = true
      · simp only [h1, h2, h3, if_true, if_false]
        simp only [Bool.or_eq_true] at h3
        rcases h3 with h3 | h3 <;> simp [h3]
      · simp only [h1, h2, h3, if_false]
        simp only [Bool.not_eq_true] at h1 h2 h3
        simp only [Bool.or_eq_false_iff] at h1 h2 h3 ⊢
        simp [h1, h2, h3]

theorem firstInvalid_none (js : Builtins) (l : List DonationFields) (i0 : Nat) :
    firstInvalid js l i0 = none ↔ ∀ b ∈ l, itemInvalid js b = false := by
  induction l generalizing i0 with
  | nil => simp [firstInvalid]
  | cons b rest ih =>
    simp only [firstInvalid]
    cases hv : validationError js b with
    | none =>
      have hb := (validationError_eq_none js b).1 hv
      simp [ih, hb]
    | some e =>
      have hb : itemInvalid js b ≠ false := fun h => by
        rw [(validationError_eq_none js b).2 h] at hv; cases hv
      simp [hb]

theorem firstInvalid_some (js : Builtins) (l : List DonationFields) (i0 i : Nat) (e : String)
    (h : firstInvalid js l i0 = some (i, e)) :
    ∃ j b, i = i0 + j ∧ l.get? j = some b ∧ itemInvalid js b = true ∧
      validationError js b = some e ∧
      ∀ j' b', j' < j → l.get? j' = some b' → itemInvalid js b' = false := by
  induction l generalizing i0 with
  | nil => simp [firstInvalid] at h
  | cons b rest ih =>
    simp only [firstInvalid] at h
    cases hv : validationError js b with
    | none =>
      rw [hv] at h
      obtain ⟨j, b1, hi, hget, hinv, he, hbefore⟩ := ih (i0 + 1) h
      refine ⟨j + 1, b1, by omega, by simpa using hget, hinv, he, ?_⟩
      intro j' b' hj' hget'
      cases j' with
      | zero =>
        simp at hget'
        rw [← hget']
        exact (validationError_eq_none js b).1 hv
      | succ j'' =>
        exact hbefore j'' b' (by omega) (by simpa using hget')
    | some e' =>
      rw [hv] at h
      simp at h
      obtain ⟨hi, he⟩ := h
      refine ⟨0, b, by omega, by simp, ?_, by rw [hv, he], ?_⟩
      · cases hb : itemInvalid js b with
        | true => rfl
        | false => rw [(validationError_eq_none js b).2 hb] at hv; cases hv
      · intro j' b' hj'
        omega

theorem insertAll_spec (js : Builtins) (donor now : Nat) (l : List DonationFields) (db : Db) :
    (insertAll js donor now db l).2 = List.range' db.nextId l.length ∧
    (insertAll js donor now db l).1.nextId = db.nextId + l.length ∧
    (∀ i b, l.get? i = some b →
      (insertAll js donor now db l).1.rows (db.nextId + i) =
        some (freshDonation donor (insertColumns js b) now)) ∧
    (∀ j, j < db.nextId ∨ db.nextId + l.length ≤ j →
      (insertAll js donor now db l).1.rows j = db.rows j) := by
  induction l generalizing db with
  | nil => simp [insertAll]
  | cons b rest ih =>
    obtain ⟨h1, h2, h3, h4⟩ := ih (insertDonation db donor (insertColumns js b) now).1
    simp only [insertAll]
    have hn : (insertDonation db donor (insertColumns js b) now).1.nextId = db.nextId + 1 := rfl
    rw [hn] at h1 h2 h3 h4
    refine ⟨?_, ?_, ?_, ?_⟩
    · rw [h1]; rfl
    · rw [h2]; simp; omega
    · intro i b' hget
      cases i with
      | zero =>
        simp at hget
        rw [h4 (db.nextId + 0) (Or.inl (by omega)), ← hget]
        simp [insertDonation]
      | succ i' =>
        have := h3 i' b' (by simpa using hget)
        rw [show db.nextId + (i' + 1) = db.nextId + 1 + i' by omega]
        exact this
    · intro j hj
      rw [h4 j (by simp at hj ⊢; omega)]
      have hne : j ≠ db.nextId := by simp at hj; omega
      simp [insertDonation, Function.update, hne]


/-- C16: a batch that is not an array or is empty, or has more than 20 items,
is refused with the table unchanged; a batch of 1 to 20 items with an item
that fails validation is refused with the table unchanged, the answer naming
the first such item; otherwise one available donation is created per item, in
input order under consecutive ids, every other row is unchanged, and the
returned count is the number of items and of returned ids. -/
theorem createBatch_all_or_nothing (js : Builtins) (db : Db) (u : User)
    (items : Option (List DonationFields)) (now : Nat) :
    (items = none ∨ items = some [] →
      createBatch js db { user := u, donations := items } now =
        (db, CreateResponse.error 400 "Debe proporcionar un array de donaciones")) ∧
    (∀ l, items = some l → 20 < l.length →
      createBatch js db { user := u, donations := items } now =
        (db, CreateResponse.error 400 "No se pueden crear más de 20 donaciones a la vez")) ∧
    (∀ l, items = some l → l ≠ [] → l.length ≤ 20 → (∃ b ∈ l, itemInvalid js b = true) →
      ∃ i b e, l.get? i = some b ∧ itemInvalid js b = true ∧
        (∀ j b', j < i → l.get? j = some b' → itemInvalid js b' = false) ∧
        createBatch js db { user := u, donations := items } now =
          (db, CreateResponse.error 400 ("Donación " ++ toString (i + 1) ++ ": " ++ e))) ∧
    (∀ l, items = some l → l ≠ [] → l.length ≤ 20 → (∀ b ∈ l, itemInvalid js b = false) →
      (createBatch js db { user := u, donations := items } now).2 =
        CreateResponse.createdBatch
          (toString l.length ++ " donaciones creadas exitosamente")
          (List.range' db.nextId l.length) l.length ∧
      (∀ i b, l.get? i = some b →
        (createBatch js db { user := u, donations := items } now).1.rows (db.nextId + i) =
          some (freshDonation u.id (insertColumns js b) now)) ∧
      (∀ j, j < db.nextId ∨ db.nextId + l.length ≤ j →
        (createBatch js db { user := u, donations := items } now).1.rows j = db.rows j) ∧
      (createBatch js db { user := u, donations := items } now).1.nextId =
        db.nextId + l.length) := by
  refine ⟨?_, ?_, ?_, ?_⟩
  · rintro (h | h) <;> subst h <;> rfl
  · intro l hl hlen
    subst hl
    cases l with
    | nil => simp at hlen
    | cons b rest =>
      have hlen' : (b :: rest).length > 20 := hlen
      simp only [createBatch, hlen', if_true]
  · intro l hl hne hlen hex
    subst hl
    cases l with
    | nil => exact absurd rfl hne
    | cons b rest =>
      have hlen' : ¬ (b :: rest).length > 20 := by omega
      cases hf : firstInvalid js (b :: rest) 0 with
      | none =>
        obtain ⟨b', hb', hinv⟩ := hex
        have := (firstInvalid_none js (b :: rest) 0).1 hf b' hb'
        rw [this] at hinv
        cases hinv
      | some p =>
        obtain ⟨i, e⟩ := p
        obtain ⟨j, b1, hi, hget, hinv, _, hbefore⟩ := firstInvalid_some js _ 0 i e hf
        have hij : i = j := by omega
        subst hij
        refine ⟨i, b1, e, hget, hinv, hbefore, ?_⟩
        simp only [createBatch, hlen', if_false, hf]
  · intro l hl hne hlen hall
    subst hl
    cases l with
    | nil => exact absurd rfl hne
    | cons b rest =>
      have hlen' : ¬ (b :: rest).length > 20 := by omega
      have hf := (firstInvalid_none js (b :: rest) 0).2 hall
      obtain ⟨h1, h2, h3, h4⟩ := insertAll_spec js u.id now (b :: rest) db
      simp only [createBatch, hlen', if_false, hf]
      refine ⟨?_, h3, h4, h2⟩
      rw [h1]
      simp

/-! ## A donation reserved by its own donor (C19) -/

/-- C19: `POST /api/donations` checks no role, so when an organization `u`
creates a donation with valid fields and then reserves it with valid logistics,
both calls succeed and the row has `donor_id = reserved_by = u.id`. And for
every donation with `donor_id = reserved_by = u.id` that is reserved and
accepted, with neither side confirmed and the stored code of a reservation, a
single confirm by `u` with that code succeeds with the completed message and
rewrites the row to `donor_confirmed = true`, `status = completed` and the two
timestamps, `recipient_confirmed` staying as it was (not true). -/
theorem self_reservation_reachable_and_completes :
    (∀ (js : Builtins) (db : Db) (u : User) (body : DonationFields) (pt pn pid : Option String)
        (rnd : ℚ) (t0 t1 : Nat),
      u.userType = "organization" → itemInvalid js body = false →
      logisticsPresent pt pn pid = true → idLengthInRange pid = true →
      (create js db { user := u, body := body } t0).2 =
        CreateResponse.created "Donación creada exitosamente" db.nextId
          (insertColumns js body).pickup_latitude (insertColumns js body).pickup_longitude ∧
      (reserve (create js db { user := u, body := body } t0).1.rows
        (reserveWith db.nextId u pt pn pid) rnd t1).2.isSuccess = true ∧
      ∃ d, (reserve (create js db { user := u, body := body } t0).1.rows
          (reserveWith db.nextId u pt pn pid) rnd t1).1 db.nextId = some d ∧
        d.status = Status.reserved ∧ d.donor_id = u.id ∧ d.reserved_by = some u.id) ∧
    (∀ (s : Store) (k : Nat) (d : Donation) (u : User) (rnd : ℚ) (now : Nat),
      s k = some d → d.donor_id = u.id → d.reserved_by = some u.id →
      d.status = Status.reserved → d.business_confirmed = some true →
      d.donor_confirmed ≠ some true → d.recipient_confirmed ≠ some true →
      d.verification_code = some (verificationCode rnd) →
      confirm s (confirmWith k u (verificationCode rnd)) now =
        (Function.update s k
          (some { d with
            status := Status.completed
            donor_confirmed := some true
            donor_confirmed_at := some now
            completed_at := some now }),
         Response.message "¡Donación completada! Ambas partes confirmaron")) := by
  constructor
  · intro js db u body pt pn pid rnd t0 t1 hu hbody hp hl
    have hv := (validationError_eq_none js body).2 hbody
    have hcreate : create js db { user := u, body := body } t0 =
        ({ rows := Function.update db.rows db.nextId
              (some (freshDonation u.id (insertColumns js body) t0))
           nextId := db.nextId + 1 },
         CreateResponse.created "Donación creada exitosamente" db.nextId
          (insertColumns js body).pickup_latitude (insertColumns js body).pickup_longitude) := by
      simp [create, hv, insertDonation]
    rw [hcreate]
    refine ⟨rfl, ?_⟩
    have havail : isAvailable (Function.update db.rows db.nextId
        (some (freshDonation u.id (insertColumns js body) t0))) db.nextId = true := by
      simp [isAvailable, freshDonation]
    have hc := reserveCheck_reserveWith (Function.update db.rows db.nextId
        (some (freshDonation u.id (insertColumns js body) t0))) db.nextId u pt pn pid
    simp [hu, hp, hl, havail] at hc
    have hrow : (Function.update db.rows db.nextId
        (some (freshDonation u.id (insertColumns js body) t0))) db.nextId =
        some (freshDonation u.id (insertColumns js body) t0) := by simp
    rw [reserve_of_ok _ _ rnd t1 _ _ hc hrow]
    refine ⟨rfl, ?_⟩
    simp [reserveSet, freshDonation]
  · intro s k d u rnd now hd hu hr hst hb hdc _ hcode
    have hC := verificationCode_ne_empty rnd
    have hcode' : d.verification_code = some (jsTrim (verificationCode rnd)) := by
      rw [jsTrim_verificationCode]; exact hcode
    have h1 := confirmCheck_donor s k d u _ hd hst hb hC hcode' hu hdc
    rw [confirm_of_ok s _ now _ d h1 hd]
    simp [confirmSet, hr]

/-- Witness of `self_reservation_reachable_and_completes`: `org7` creates the
donation of the scenario in the empty table and reserves it; and `org7`
confirms the accepted row of `selfStore`. -/
theorem self_reservation_reachable_and_completes_witness :
    (∃ d, (reserve (create exampleBuiltins emptyDb { user := org7, body := scenarioBody } 0).1.rows
          (reserveWith emptyDb.nextId org7 (some "2024-01-01T10:00") (some "Ana Ruiz")
            (some "1029384756")) (1 / 2) 10).1 emptyDb.nextId = some d ∧
        d.status = Status.reserved ∧ d.donor_id = org7.id ∧ d.reserved_by = some org7.id) ∧
    confirm (singleRow 1 selfAccepted) (confirmWith 1 org7 (verificationCode (1 / 2))) 30 =
      (Function.update (singleRow 1 selfAccepted) 1
        (some { selfAccepted with
          status := Status.completed
          donor_confirmed := some true
          donor_confirmed_at := some 30
          completed_at := some 30 }),
       Response.message "¡Donación completada! Ambas partes confirmaron") :=
  ⟨(self_reservation_reachable_and_completes.1 exampleBuiltins emptyDb org7 scenarioBody
      (some "2024-01-01T10:00") (some "Ana Ruiz") (some "1029384756") (1 / 2) 0 10
      (by decide!) (by decide!) (by decide!) (by decide!)).2.2,
   self_reservation_reachable_and_completes.2 (singleRow 1 selfAccepted) 1 selfAccepted org7
      (1 / 2) 30 (by decide!) (by decide!) (by decide!) (by decide!) (by decide!) (by decide!)
      (by decide!) (by decide!)⟩

/-! ## Records that `cleanDonation` rejects (C17) -/

theorem truthyNat_eq_false (o : Option Nat) : truthyNat o = false ↔ o = none ∨ o = some 0 := by
  cases o with
  | none => simp [truthyNat]
  | some n => simp [truthyNat]

theorem truthy_eq_false (o : Option String) : truthy o = false ↔ o = none ∨ o = some "" := by
  cases o with
  | none => simp [truthy]
  | some v => simp [truthy]

theorem filter_isSome_eq (l : List (Option CleanDonation)) :
    l.filter (fun c => c.isSome) = (l.filterMap (fun c => c)).map some := by
  induction l with
  | nil => rfl
  | cons a t ih =>
    cases a with
    | none => simpa using ih
    | some v => simpa using ih

/-- C17 as stated fails: a row with the id 0, a title and a category is an
object whose id is neither null, undefined nor empty, and `cleanDonation`
returns null for it. -/
theorem cleanDonation_rejects_id_zero :
    (scenarioRaw 0 "Bread" (481 / 100)).id = some 0 ∧
    (scenarioRaw 0 "Bread" (481 / 100)).title = some "Bread" ∧
    (scenarioRaw 0 "Bread" (481 / 100)).category = some "Bakery" ∧
    cleanDonation exampleBuiltins (1 / 2) (1 / 2) 9
      (some (scenarioRaw 0 "Bread" (481 / 100))) = none := by
  decide!

/-- C17 (amended): `cleanDonation` returns null for an input that is not an
object, and for an object exactly when its id is null, undefined or 0, or its
title or its category is null, undefined or the empty string; for every other
input it returns a record. The list operations emit exactly the non-null
results of `cleanDonation` over the rows, in row order. -/
theorem cleanDonation_null_iff (js : Builtins) (rLat rLng : ℚ) (now : Nat) :
    cleanDonation js rLat rLng now none = none ∧
    (∀ d : RawDonation, cleanDonation js rLat rLng now (some d) = none ↔
      (d.id = none ∨ d.id = some 0) ∨ (d.title = none ∨ d.title = some "") ∨
        (d.category = none ∨ d.category = some "")) ∧
    (∀ (draws : Nat → ℚ × ℚ) (rows : List RawDonation),
      cleanRows js draws now rows =
        (rows.enum.filterMap
          (fun p => cleanDonation js (draws p.1).1 (draws p.1).2 now (some p.2))).map some) := by
  refine ⟨rfl, ?_, ?_⟩
  · intro d
    rw [← truthyNat_eq_false, ← truthy_eq_false, ← truthy_eq_false]
    unfold cleanDonation
    cases h1 : truthyNat d.id <;> cases h2 : truthy d.title <;> cases h3 : truthy d.category <;>
      simp [h1, h2, h3]
  · intro draws rows
    unfold cleanRows
    rw [filter_isSome_eq, List.filterMap_map]
    rfl

/-! ## Emitted coordinates (C18) -/

/-- C18 (defect): a row whose stored latitude is 0.0000001 and whose
longitude is -75.69 is numeric with no zero component, so `cleanDonation`
accepts it without the fallback, and the rounding to six decimals emits the
latitude 0 in `latitude` and in `pickup_latitude`. -/
theorem tiny_latitude_emitted_as_zero :
    (cleanDonation exampleBuiltins (1 / 2) (1 / 2) 9
        (some (scenarioRaw 1 "Bread" (1 / 10000000)))).map
      (fun c => (c.latitude, c.pickup_latitude, c.longitude, c.pickup_longitude)) =
      some (0, 0, -7569 / 100, -7569 / 100) := by
  decide!

/-! ## Emitted records read back (C20) -/

/-- C20 (defect): a row whose title is three spaces passes the guard of
`cleanDonation`, the emitted record has the empty title, and `cleanDonation`
applied to the emitted record returns null. -/
theorem blank_title_emitted_empty :
    (cleanDonation exampleBuiltins (1 / 2) (1 / 2) 9
        (some (scenarioRaw 1 "   " (481 / 100)))).map
      (fun c => (c.id, c.title, c.category,
        cleanDonation exampleBuiltins (1 / 2) (1 / 2) 9 (some c.asInput))) =
      some (1, "", "bakery", none) := by
  decide!

end Donations
